import Mathlib

/-!
# ADIOSWriter: field packing, the handle queue and the write cycle

A shallow embedding of `src/picongpu/include/plugins/adios/ADIOSWriter.hpp`.

* `DataSpace<simDim>` is a vector of `int`; its components are modelled as `Int`.
  Signed arithmetic is exact in the model (signed overflow is undefined in C++),
  unsigned arithmetic wraps: `uint32_t` modulo `2^32`, `size_t` and `uint64_t`
  modulo `2^64`.
* Raw memory (`float*`) is a function from element index to value.
* The ADIOS library is an external collaborator: every call the writer issues is
  appended to a trace, and the two results the writer depends on (the id returned by
  `adios_define_var`, the handle stored by `adios_open`) are parameters. The macros
  `ADIOS_CMD` and `ADIOS_CMD_EXPECT_NONZERO` are defined in a header that is not among
  the sources; they are taken to evaluate their argument once and to return.
* A C++ `throw` ends the computation with the state reached so far and the message.
* `writeAdios` is modelled up to its first `return NULL`; the statements that follow
  it in the source are never executed and are not modelled.
* `ThreadParams` is declared in a header that is not among the sources; the integer
  type of its member `currentStep` is a parameter.
-/

set_option autoImplicit false

namespace picongpu
namespace adios

/-! ## Machine integers -/

/-- Conversion of an `int` value to `size_t` (64 bit, wraps). -/
def toSizeT (i : Int) : Nat := (i % 18446744073709551616).toNat

/-- Conversion of an `int` value to `uint32_t` (wraps). -/
def toUInt32 (i : Int) : Nat := (i % 4294967296).toNat

/-- Multiplication of two `uint32_t` values. -/
def mulU32 (a b : Nat) : Nat := (a * b) % 4294967296

/-- Multiplication of two `size_t` values. -/
def mulSizeT (a b : Nat) : Nat := (a * b) % 18446744073709551616

/-- Addition of two `size_t` values. -/
def addSizeT (a b : Nat) : Nat := (a + b) % 18446744073709551616

/-! ## Data model -/

/-- `DataSpace<simDim>`: one `int` per dimension. -/
abbrev DataSpace (simDim : Nat) := Fin simDim → Int

/-- `DataSpace::productOfComponents()`. -/
def DataSpace.productOfComponents {simDim : Nat} (v : DataSpace simDim) : Int :=
  (List.ofFn v).prod

/-- `v[i]` for a literal index `i`. When `i` is not below `simDim` the C++ reads past
the end of the vector; the value found there is not determined by the program and is
supplied by `past`. -/
def DataSpace.idx {simDim : Nat} (v : DataSpace simDim) (i : Nat) (past : Nat → Int) : Int :=
  if h : i < simDim then v ⟨i, h⟩ else past i

/-- What a read past the end of each of the three local vectors of `writeField`
yields (only consulted when `simDim < 3`). -/
structure PastEnd where
  field_full : Nat → Int
  field_no_guard : Nat → Int
  field_guard : Nat → Int

/-- `GridLayout<simDim>`: the padded shape (`getDataSpace()`) and the guard width
(`getGuard()`). -/
structure GridLayout (simDim : Nat) where
  dataSpace : DataSpace simDim
  guard : DataSpace simDim

/-- `DomainInformation`, with the members the writer uses. -/
structure DomainInformation (simDim : Nat) where
  globalDomainSize : DataSpace simDim
  globalDomainOffset : DataSpace simDim
  domainSize : DataSpace simDim
  domainOffset : DataSpace simDim
  localDomainOffset : DataSpace simDim

/-- `VirtualWindow`, with the members the writer uses. -/
structure VirtualWindow (simDim : Nat) where
  localOffset : DataSpace simDim
  localSize : DataSpace simDim
  localFullSize : DataSpace simDim
  globalSimulationOffset : DataSpace simDim
  globalWindowSize : DataSpace simDim
  globalSimulationSize : DataSpace simDim
  slides : Nat
  isBottom : Bool

/-- `ADIOS_DATATYPES`: the two enumerators named in the source and the result of the
`PICToAdios<T>` trait for the C++ type called `T`. -/
inductive ADIOS_DATATYPES where
  | adios_integer
  | adios_unsigned_integer
  | PICToAdios (T : String)
  deriving DecidableEq, Repr

/-- The data handed to `adios_write_byid`: the address of an `int`, or the staging
buffer `fieldBfr` with the contents it has at the time of the call. -/
inductive Payload (α : Type) where
  | scalar (value : Int)
  | buffer (mem : Nat → α)

/-- One call into the ADIOS / MPI libraries, with its arguments and, for
`adios_define_var` and `adios_open`, the result it produced. A null pointer argument
is `none`. -/
inductive AdiosCall (α : Type) where
  | adios_declare_group (name timeIndex : String)
  | adios_select_method (method : String)
  | adios_define_var (name : String) (type : ADIOS_DATATYPES)
      (dimensions globalDimensions localOffsets : Option String) (id : Int)
  | adios_open (groupName fileName mode : String) (fd : Int)
  | adios_group_size (fd : Int) (dataSize : Nat)
  | adios_write (fd : Int) (name : String) (value : Int)
  | adios_write_byid (fd : Int) (id : Int) (data : Payload α)
  | adios_close (fd : Int)
  | MPI_Barrier

/-- Constants of `ADIOSWriter.def`, which is not part of the sources at hand; they are
parameters of the model. -/
structure Defs where
  ADIOS_FIELDS_NAME : String
  ADIOS_SIZE_LOCAL : String
  ADIOS_SIZE_GLOBAL : String
  ADIOS_OFFSET_GLOBAL : String
  ADIOS_INVALID_HANDLE : Int

/-- The results of the ADIOS library the writer depends on: the id returned by the
`k`-th call of `adios_define_var` (counted from 0) and the handle `adios_open` stores
for a file name. -/
structure AdiosLib where
  define_var_id : Nat → Int
  open_fd : String → Int

/-- `ThreadParams`, with the members the writer uses. `fieldBfrLength` is the array
length of the last `new float[...]`. -/
structure ThreadParams (α : Type) (simDim : Nat) where
  currentStep : Int
  fullFilename : String
  adiosFileHandle : Int
  adiosGroupSize : Nat
  adiosFieldVarIds : List Int
  adiosSizeVarIds : Fin simDim → Int
  adiosTotalSizeVarIds : Fin simDim → Int
  adiosOffsetVarIds : Fin simDim → Int
  fieldBfr : Nat → α
  fieldBfrLength : Int
  gridLayout : GridLayout simDim
  gridPosition : DataSpace simDim
  window : VirtualWindow simDim

/-- The writer state together with the library state: the trace of calls issued so
far and the number of variables defined so far. -/
structure State (α : Type) (simDim : Nat) where
  params : ThreadParams α simDim
  calls : List (AdiosCall α)
  definedVars : Nat

/-- Result of a function that may throw: the state reached and the message of the
`std::runtime_error`, if one was thrown. -/
structure Outcome (α : Type) (simDim : Nat) where
  state : State α simDim
  error : Option String

/-! ## writeField -/

/-- The local `plane_full_size` of `writeField`:
`field_full[1] * field_full[0] * nComponents`, an `int` product converted to
`uint32_t` and multiplied by the `uint32_t` component count. -/
def plane_full_size {simDim : Nat} (field_full : DataSpace simDim) (past : PastEnd)
    (nComponents : Nat) : Nat :=
  mulU32 (toUInt32 (field_full.idx 1 past.field_full * field_full.idx 0 past.field_full))
    nComponents

/-- The local `plane_no_guard_size` of `writeField`:
`field_no_guard[1] * field_no_guard[0]`, an `int` product stored in a `size_t`. -/
def plane_no_guard_size {simDim : Nat} (field_no_guard : DataSpace simDim) (past : PastEnd) :
    Nat :=
  toSizeT (field_no_guard.idx 1 past.field_no_guard * field_no_guard.idx 0 past.field_no_guard)

/-- The local `base_index_src` of `writeField`:
`(z + field_guard[2]) * plane_full_size + (y + field_guard[1]) * field_full[0] * nComponents`.
The first product is computed in `size_t`, the second in `uint32_t`. -/
def base_index_src {simDim : Nat} (field_full field_guard : DataSpace simDim) (past : PastEnd)
    (nComponents z y : Nat) : Nat :=
  addSizeT
    (mulSizeT (toSizeT ((z : Int) + field_guard.idx 2 past.field_guard))
      (plane_full_size field_full past nComponents))
    (mulU32
      (toUInt32 (((y : Int) + field_guard.idx 1 past.field_guard) *
        field_full.idx 0 past.field_full))
      nComponents)

/-- The local `base_index_dst` of `writeField`:
`z * plane_no_guard_size + y * field_no_guard[0]`. -/
def base_index_dst {simDim : Nat} (field_no_guard : DataSpace simDim) (past : PastEnd)
    (z y : Nat) : Nat :=
  addSizeT (mulSizeT (toSizeT (z : Int)) (plane_no_guard_size field_no_guard past))
    (toSizeT ((y : Int) * field_no_guard.idx 0 past.field_no_guard))

/-- The local `index_src` of `writeField`:
`base_index_src + (x + field_guard[0]) * nComponents + d`. -/
def index_src {simDim : Nat} (field_full field_guard : DataSpace simDim) (past : PastEnd)
    (nComponents d z y x : Nat) : Nat :=
  addSizeT
    (addSizeT (base_index_src field_full field_guard past nComponents z y)
      (mulU32 (toUInt32 ((x : Int) + field_guard.idx 0 past.field_guard)) nComponents))
    d

/-- The local `index_dst` of `writeField`: `base_index_dst + x`. -/
def index_dst {simDim : Nat} (field_no_guard : DataSpace simDim) (past : PastEnd)
    (z y x : Nat) : Nat :=
  addSizeT (base_index_dst field_no_guard past z y) (toSizeT (x : Int))

/-- The copy loops of `writeField` for component `d`: the pairs
`(index_dst, index_src)` in the order in which the assignments
`fieldBfr[index_dst] = ptr[index_src]` are executed. -/
def copyIndices {simDim : Nat} (field_full field_no_guard field_guard : DataSpace simDim)
    (past : PastEnd) (nComponents d : Nat) : List (Nat × Nat) :=
  (List.range (field_no_guard.idx 2 past.field_no_guard).toNat).flatMap fun z =>
    (List.range (field_no_guard.idx 1 past.field_no_guard).toNat).flatMap fun y =>
      (List.range (field_no_guard.idx 0 past.field_no_guard).toNat).map fun x =>
        (index_dst field_no_guard past z y x,
         index_src field_full field_guard past nComponents d z y x)

/-- The assignment `fieldBfr[index_dst] = ((float*)ptr)[index_src]`. -/
def assign {α : Type} (ptr : Nat → α) (fieldBfr : Nat → α) (ix : Nat × Nat) : Nat → α :=
  fun i => if i = ix.1 then ptr ix.2 else fieldBfr i

/-- The copy loops of `writeField` for component `d`. -/
def copyComponent {α : Type} {simDim : Nat}
    (field_full field_no_guard field_guard : DataSpace simDim) (past : PastEnd)
    (nComponents d : Nat) (ptr : Nat → α) (fieldBfr : Nat → α) : Nat → α :=
  (copyIndices field_full field_no_guard field_guard past nComponents d).foldl (assign ptr)
    fieldBfr

/-- The body of the component loop of `writeField`, for the components listed in
`ds`. -/
def writeFieldLoop {α : Type} {simDim : Nat}
    (field_full field_no_guard field_guard : DataSpace simDim) (past : PastEnd)
    (nComponents : Nat) (ptr : Nat → α) : List Nat → State α simDim → Outcome α simDim
  | [], st => ⟨st, none⟩
  | d :: ds, st =>
    let bfr := copyComponent field_full field_no_guard field_guard past nComponents d ptr
      st.params.fieldBfr
    let st1 : State α simDim := { st with params := { st.params with fieldBfr := bfr } }
    match st1.params.adiosFieldVarIds with
    | [] => ⟨st1, some "Cannot write field (var id list is empty)"⟩
    | adiosFieldVarId :: rest =>
      writeFieldLoop field_full field_no_guard field_guard past nComponents ptr ds
        { st1 with
          params := { st1.params with adiosFieldVarIds := rest }
          calls := st1.calls ++
            [AdiosCall.adios_write_byid st1.params.adiosFileHandle adiosFieldVarId
              (Payload.buffer bfr)] }

/-- `ADIOSWriter::writeField`. The arguments `sizePtrType`, `adiosType`, `name` and
`unit` are used for logging only or not at all and are omitted. -/
def writeField {α : Type} {simDim : Nat} (past : PastEnd) (st : State α simDim)
    (domInfo : DomainInformation simDim) (nComponents : Nat) (ptr : Nat → α) :
    Outcome α simDim :=
  let field_layout := st.params.gridLayout
  let field_full := field_layout.dataSpace
  let field_no_guard := domInfo.domainSize
  let field_guard := field_layout.guard + domInfo.localDomainOffset
  writeFieldLoop field_full field_no_guard field_guard past nComponents ptr
    (List.range nComponents) st

/-! ## Variable declaration -/

/-- A call of `adios_define_var`: the call is recorded with the id the library
returns, which is also the result. The group argument (always `adiosFieldsGroup`) and
the path argument (always the empty string) are not recorded. -/
def adios_define_var {α : Type} {simDim : Nat} (lib : AdiosLib) (st : State α simDim)
    (name : String) (type : ADIOS_DATATYPES)
    (dimensions globalDimensions localOffsets : Option String) : State α simDim × Int :=
  let id := lib.define_var_id st.definedVars
  ({ st with
      calls := st.calls ++
        [AdiosCall.adios_define_var name type dimensions globalDimensions localOffsets id]
      definedVars := st.definedVars + 1 },
   id)

/-- The array `name_lookup_tpl` of `defineFieldVar`. -/
def name_lookup_tpl : List String := ["x", "y", "z", "w"]

/-- `name_lookup_tpl[i]`; an index past the array (undefined in C++) yields the empty
string in the model. -/
def name_lookup (i : Nat) : String := name_lookup_tpl.getD i ""

/-- The first loop of `defineFieldVar`: the three streams `fieldLocalSizeStr`,
`fieldGlobalSizeStr`, `fieldGlobalOffsetStr` after the loop over the dimensions. -/
def fieldShapeStrs (defs : Defs) (simDim : Nat) : String × String × String :=
  (List.range simDim).foldl
    (fun (s : String × String × String) d =>
      let fieldLocalSizeStr := s.1 ++ defs.ADIOS_SIZE_LOCAL ++ name_lookup d
      let fieldGlobalSizeStr := s.2.1 ++ defs.ADIOS_SIZE_GLOBAL ++ name_lookup d
      let fieldGlobalOffsetStr := s.2.2 ++ defs.ADIOS_OFFSET_GLOBAL ++ name_lookup d
      if d < simDim - 1 then
        (fieldLocalSizeStr ++ ",", fieldGlobalSizeStr ++ ",", fieldGlobalOffsetStr ++ ",")
      else
        (fieldLocalSizeStr, fieldGlobalSizeStr, fieldGlobalOffsetStr))
    ("", "", "")

/-- The name of the dataset of component `c` in `defineFieldVar`. -/
def datasetName (defs : Defs) (name : String) (nComponents c : Nat) : String :=
  let s := defs.ADIOS_FIELDS_NAME ++ "_" ++ name
  if nComponents > 1 then s ++ "_" ++ name_lookup c else s

/-- The body of the second loop of `defineFieldVar`, for component `c`: the variable
is defined and its id appended to `adiosFieldVarIds`. `strs` are the three shape
expressions. -/
def defineFieldVarStep {α : Type} {simDim : Nat} (defs : Defs) (lib : AdiosLib)
    (strs : String × String × String) (nComponents : Nat) (adiosType : ADIOS_DATATYPES)
    (name : String) (st : State α simDim) (c : Nat) : State α simDim :=
  let r := adios_define_var lib st (datasetName defs name nComponents c) adiosType
    (some strs.1) (some strs.2.1) (some strs.2.2)
  let adiosFieldVarId := r.2
  { r.1 with
    params := { r.1.params with
      adiosFieldVarIds := r.1.params.adiosFieldVarIds ++ [adiosFieldVarId] } }

/-- `ADIOSWriter::defineFieldVar`. The argument `domInfo` is not used by the function
and is omitted. -/
def defineFieldVar {α : Type} {simDim : Nat} (defs : Defs) (lib : AdiosLib)
    (st : State α simDim) (nComponents : Nat) (adiosType : ADIOS_DATATYPES)
    (name : String) : State α simDim :=
  (List.range nComponents).foldl
    (defineFieldVarStep defs lib (fieldShapeStrs defs simDim) nComponents adiosType name) st

/-- One entry of the compile-time list `FileOutputFields` (declared outside the
sources at hand), with what the writer takes from the field type: its name, its number
of components, for a `FieldTmpOperation<Solver, Species>` entry the name and size of
`ComponentType`, and the grid layout and host data the field object provides when it
is written. -/
structure FileOutputField (α : Type) (simDim : Nat) where
  name : String
  numComponents : Nat
  fieldTmpOperation : Option (String × Nat)
  gridLayout : GridLayout simDim
  hostData : Nat → α

/-- `sizeof(float)`. -/
def sizeof_float : Nat := 4

/-- `sizeof(int)` and `sizeof(unsigned int)`. -/
def sizeof_int : Nat := 4

/-- The value `localGroupSize` computed by `CollectFieldsSizes<T>` (generic template
and `FieldTmpOperation` specialization). -/
def localGroupSize {α : Type} {simDim : Nat} (f : FileOutputField α simDim)
    (domInfo : DomainInformation simDim) : Nat :=
  match f.fieldTmpOperation with
  | none =>
    mulSizeT
      (addSizeT (mulSizeT (toSizeT domInfo.globalDomainSize.productOfComponents) sizeof_float)
        (3 * sizeof_int))
      f.numComponents
  | some (_, sizeofComponentType) =>
    mulSizeT
      (mulSizeT (toSizeT domInfo.globalDomainSize.productOfComponents) sizeofComponentType)
      f.numComponents

/-- The `adiosType` argument `CollectFieldsSizes<T>` passes to `defineFieldVar`:
`PICToAdios<float>` in the generic template, `PICToAdios<ComponentType>` in the
`FieldTmpOperation` specialization. -/
def fieldAdiosType {α : Type} {simDim : Nat} (f : FileOutputField α simDim) :
    ADIOS_DATATYPES :=
  match f.fieldTmpOperation with
  | none => ADIOS_DATATYPES.PICToAdios "float"
  | some (ComponentType, _) => ADIOS_DATATYPES.PICToAdios ComponentType

/-- `CollectFieldsSizes<T>::operator()` (generic template and `FieldTmpOperation`
specialization). -/
def CollectFieldsSizes {α : Type} {simDim : Nat} (defs : Defs) (lib : AdiosLib)
    (st : State α simDim) (domInfo : DomainInformation simDim)
    (f : FileOutputField α simDim) : State α simDim :=
  let st1 : State α simDim :=
    { st with
      params := { st.params with
        adiosGroupSize := addSizeT st.params.adiosGroupSize (localGroupSize f domInfo) } }
  defineFieldVar defs lib st1 f.numComponents (fieldAdiosType f) f.name

/-- The body of the loop of `defineAdiosFieldVars` for dimension `d`. -/
def defineAdiosFieldVarsStep {α : Type} {simDim : Nat} (defs : Defs) (lib : AdiosLib)
    (st : State α simDim) (d : Fin simDim) : State α simDim :=
  let r1 := adios_define_var lib st (defs.ADIOS_SIZE_LOCAL ++ name_lookup d.val)
    ADIOS_DATATYPES.adios_integer none none none
  let r2 := adios_define_var lib r1.1 (defs.ADIOS_SIZE_GLOBAL ++ name_lookup d.val)
    ADIOS_DATATYPES.adios_integer none none none
  let r3 := adios_define_var lib r2.1 (defs.ADIOS_OFFSET_GLOBAL ++ name_lookup d.val)
    ADIOS_DATATYPES.adios_integer none none none
  { r3.1 with
    params := { r3.1.params with
      adiosSizeVarIds := Function.update r3.1.params.adiosSizeVarIds d r1.2
      adiosTotalSizeVarIds := Function.update r3.1.params.adiosTotalSizeVarIds d r2.2
      adiosOffsetVarIds := Function.update r3.1.params.adiosOffsetVarIds d r3.2
      adiosGroupSize := addSizeT r3.1.params.adiosGroupSize (sizeof_int * 3) } }

/-- `ADIOSWriter::defineAdiosFieldVars`. The argument `domInfo` is not used by the
function and is omitted. -/
def defineAdiosFieldVars {α : Type} {simDim : Nat} (defs : Defs) (lib : AdiosLib)
    (st : State α simDim) : State α simDim :=
  (List.finRange simDim).foldl (defineAdiosFieldVarsStep defs lib) st

/-! ## The write cycle -/

/-- The `DomainInformation` built at the start of `writeAdios`. -/
def primaryDomainInfo {simDim : Nat} (window : VirtualWindow simDim)
    (gridPosition : DataSpace simDim) : DomainInformation simDim :=
  { localDomainOffset := window.localOffset
    globalDomainOffset := window.globalSimulationOffset
    globalDomainSize := window.globalWindowSize
    domainOffset := gridPosition + window.localOffset
    domainSize := window.localSize }

/-- The value `offset` written for dimension `d` by the loop of `writeAdios` that
writes the size and offset variables. -/
def writtenOffset {simDim : Nat} (domInfo : DomainInformation simDim) (d : Fin simDim) :
    Int :=
  if 1 = d.val then max 0 (domInfo.domainOffset d - domInfo.globalDomainOffset d)
  else domInfo.domainOffset d

/-- The three calls of the body of that loop for dimension `d`. -/
def axisWrites {α : Type} {simDim : Nat} (p : ThreadParams α simDim)
    (domInfo : DomainInformation simDim) (d : Fin simDim) : List (AdiosCall α) :=
  [AdiosCall.adios_write_byid p.adiosFileHandle (p.adiosSizeVarIds d)
     (Payload.scalar (domInfo.domainSize d)),
   AdiosCall.adios_write_byid p.adiosFileHandle (p.adiosTotalSizeVarIds d)
     (Payload.scalar (domInfo.globalDomainSize d)),
   AdiosCall.adios_write_byid p.adiosFileHandle (p.adiosOffsetVarIds d)
     (Payload.scalar (writtenOffset domInfo d))]

/-- The loop of `writeAdios` that writes the size and offset variables. -/
def writeAxisVars {α : Type} {simDim : Nat} (st : State α simDim)
    (domInfo : DomainInformation simDim) : State α simDim :=
  (List.finRange simDim).foldl
    (fun st d => { st with calls := st.calls ++ axisWrites st.params domInfo d }) st

/-- `GetFields<T>::operator()` for every entry of `FileOutputFields` in order: the
grid layout of the field is stored in the parameters and `writeField` is called; a
throw ends the iteration. -/
def forEachGetFields {α : Type} {simDim : Nat} (past : PastEnd)
    (domInfo : DomainInformation simDim) :
    List (FileOutputField α simDim) → State α simDim → Outcome α simDim
  | [], st => ⟨st, none⟩
  | f :: fs, st =>
    let st1 : State α simDim :=
      { st with params := { st.params with gridLayout := f.gridLayout } }
    let r := writeField past st1 domInfo f.numComponents f.hostData
    match r.error with
    | some e => ⟨r.state, some e⟩
    | none => forEachGetFields past domInfo fs r.state

/-- Appends a call to the trace. -/
def State.call {α : Type} {simDim : Nat} (st : State α simDim) (c : AdiosCall α) :
    State α simDim :=
  { st with calls := st.calls ++ [c] }

/-- The declaring part of `writeAdios`: the statements from `adios_declare_group` to
`forEachCollectFieldsSizes`. -/
def defineAdiosVars {α : Type} {simDim : Nat} (defs : Defs) (lib : AdiosLib)
    (FileOutputFields : List (FileOutputField α simDim)) (domInfo : DomainInformation simDim)
    (st0 : State α simDim) : State α simDim :=
  let st := st0.call (AdiosCall.adios_declare_group defs.ADIOS_FIELDS_NAME "iteration")
  let st := st.call (AdiosCall.adios_select_method "MPI")
  let st : State α simDim :=
    { st with params := { st.params with adiosGroupSize := 2 * sizeof_int } }
  let st := (adios_define_var lib st "iteration" ADIOS_DATATYPES.adios_unsigned_integer
    none none none).1
  let st := (adios_define_var lib st "sim_slides" ADIOS_DATATYPES.adios_unsigned_integer
    none none none).1
  let st := defineAdiosFieldVars defs lib st
  let st : State α simDim := { st with params := { st.params with adiosFieldVarIds := [] } }
  FileOutputFields.foldl (fun st f => CollectFieldsSizes defs lib st domInfo f) st

/-- The writing part of `writeAdios`: the statements from `adios_group_size` to the
first `return NULL`. -/
def writeAdiosVars {α : Type} {simDim : Nat} (past : PastEnd)
    (FileOutputFields : List (FileOutputField α simDim)) (domInfo : DomainInformation simDim)
    (slides : Nat) (st : State α simDim) : Outcome α simDim :=
  let st := st.call
    (AdiosCall.adios_group_size st.params.adiosFileHandle st.params.adiosGroupSize)
  let st := st.call
    (AdiosCall.adios_write st.params.adiosFileHandle "iteration" st.params.currentStep)
  let st := st.call (AdiosCall.adios_write st.params.adiosFileHandle "sim_slides" slides)
  let st := writeAxisVars st domInfo
  let r := forEachGetFields past domInfo FileOutputFields st
  match r.error with
  | some e => ⟨r.state, some e⟩
  | none =>
    let st := r.state.call (AdiosCall.adios_close r.state.params.adiosFileHandle)
    let st := st.call AdiosCall.MPI_Barrier
    ⟨st, none⟩

/-- `ADIOSWriter::writeAdios` up to its first `return NULL`: the declaring part, the
open call with the check of the handle, and the writing part. The local
`particleOffset` is only read by the statements after that return and is left out. -/
def writeAdios {α : Type} {simDim : Nat} (defs : Defs) (lib : AdiosLib) (past : PastEnd)
    (FileOutputFields : List (FileOutputField α simDim)) (st0 : State α simDim) :
    Outcome α simDim :=
  let slides := st0.params.window.slides
  let domInfo := primaryDomainInfo st0.params.window st0.params.gridPosition
  let st := defineAdiosVars defs lib FileOutputFields domInfo st0
  let fd := lib.open_fd st.params.fullFilename
  let st : State α simDim :=
    { st with
      params := { st.params with adiosFileHandle := fd }
      calls := st.calls ++
        [AdiosCall.adios_open defs.ADIOS_FIELDS_NAME st.params.fullFilename "w" fd] }
  if st.params.adiosFileHandle = defs.ADIOS_INVALID_HANDLE then
    ⟨st, some "Failed to open ADIOS file"⟩
  else
    writeAdiosVars past FileOutputFields domInfo slides st

/-! ## Observations on the trace -/

/-- The calls the component loop of `writeField` issues when it processes the
components `ds` with the handles `ids` at the front of the queue, starting from the
staging buffer `bfr`: one `adios_write_byid` per component for which a handle is
left. -/
def stagedWrites {α : Type} {simDim : Nat}
    (field_full field_no_guard field_guard : DataSpace simDim) (past : PastEnd)
    (nComponents : Nat) (ptr : Nat → α) (fd : Int) :
    List Nat → List Int → (Nat → α) → List (AdiosCall α)
  | d :: ds, id :: ids, bfr =>
    let b := copyComponent field_full field_no_guard field_guard past nComponents d ptr bfr
    AdiosCall.adios_write_byid fd id (Payload.buffer b) ::
      stagedWrites field_full field_no_guard field_guard past nComponents ptr fd ds ids b
  | [], _, _ => []
  | _ :: _, [], _ => []

/-- The handle of a call that writes a staged field buffer. -/
def AdiosCall.fieldWriteId {α : Type} : AdiosCall α → Option Int
  | AdiosCall.adios_write_byid _ id (Payload.buffer _) => some id
  | _ => none

/-- The handle and value of a call that writes an `int` by id. -/
def AdiosCall.scalarWrite {α : Type} : AdiosCall α → Option (Int × Int)
  | AdiosCall.adios_write_byid _ id (Payload.scalar v) => some (id, v)
  | _ => none

/-- The name and returned id of a variable declaration. -/
def AdiosCall.declared {α : Type} : AdiosCall α → Option (String × Int)
  | AdiosCall.adios_define_var name _ _ _ _ id => some (name, id)
  | _ => none

/-- What a write call refers to: the name (`adios_write`) or the id
(`adios_write_byid`) of the variable. -/
def AdiosCall.written {α : Type} : AdiosCall α → Option (String ⊕ Int)
  | AdiosCall.adios_write _ name _ => some (Sum.inl name)
  | AdiosCall.adios_write_byid _ id _ => some (Sum.inr id)
  | _ => none

/-! ## Concrete inputs -/

/-- A staged field buffer, if the call writes one. -/
def AdiosCall.staged {α : Type} : AdiosCall α → Option (Nat → α)
  | AdiosCall.adios_write_byid _ _ (Payload.buffer mem) => some mem
  | _ => none

/-- No memory is read past the end of a vector when `simDim = 3`; this value is never
consulted there. -/
def noPast : PastEnd :=
  { field_full := fun _ => 0, field_no_guard := fun _ => 0, field_guard := fun _ => 0 }

/-- A window whose local size is `localSize`, with all offsets zero. -/
def windowOfSize {simDim : Nat} (localSize : DataSpace simDim) : VirtualWindow simDim :=
  { localOffset := fun _ => 0
    localSize := localSize
    localFullSize := localSize
    globalSimulationOffset := fun _ => 0
    globalWindowSize := localSize
    globalSimulationSize := localSize
    slides := 0
    isBottom := true }

/-- A state with file handle `7`, the handle queue `ids`, an empty trace, a staging
buffer of zeros and the given grid layout and local size. -/
def stateOf {simDim : Nat} (layout : GridLayout simDim) (localSize : DataSpace simDim)
    (ids : List Int) : State Nat simDim :=
  { params :=
      { currentStep := 0
        fullFilename := "simDataAdios_0.bp"
        adiosFileHandle := 7
        adiosGroupSize := 0
        adiosFieldVarIds := ids
        adiosSizeVarIds := fun _ => 0
        adiosTotalSizeVarIds := fun _ => 0
        adiosOffsetVarIds := fun _ => 0
        fieldBfr := fun _ => 0
        fieldBfrLength := localSize.productOfComponents
        gridLayout := layout
        gridPosition := fun _ => 0
        window := windowOfSize localSize }
    calls := []
    definedVars := 0 }

/-- A source buffer whose element at index `i` is `i`. -/
def indexSource : Nat → Nat := fun i => i

/-- A padded shape of 40000 x 40000 x 2 cells without guard. -/
def wideLayout : GridLayout 3 := { dataSpace := ![40000, 40000, 2], guard := ![0, 0, 0] }

/-- A local size of 1 x 1 x 2 cells. -/
def wideLocalSize : DataSpace 3 := ![1, 1, 2]

/-- A padded shape of 7 x 6 x 6 cells with guard width 2. -/
def smallLayout : GridLayout 3 := { dataSpace := ![7, 6, 6], guard := ![2, 2, 2] }

/-- A local size of 3 x 2 x 2 cells. -/
def smallLocalSize : DataSpace 3 := ![3, 2, 2]

/-! ## Expected declarations -/

/-- The declarations `defineFieldVar` issues for a field, when `n` variables have been
defined before: one per component, with the id the library returns for it. -/
def fieldVarCalls {α : Type} (defs : Defs) (lib : AdiosLib) (simDim : Nat)
    (nComponents : Nat) (adiosType : ADIOS_DATATYPES) (name : String) (n : Nat) :
    List (AdiosCall α) :=
  (List.range nComponents).map fun c =>
    AdiosCall.adios_define_var (datasetName defs name nComponents c) adiosType
      (some (fieldShapeStrs defs simDim).1) (some (fieldShapeStrs defs simDim).2.1)
      (some (fieldShapeStrs defs simDim).2.2) (lib.define_var_id (n + c))

/-- The declarations issued for a list of fields, in order. -/
def fieldsVarCalls {α : Type} {simDim : Nat} (defs : Defs) (lib : AdiosLib) :
    List (FileOutputField α simDim) → Nat → List (AdiosCall α)
  | [], _ => []
  | f :: fs, n =>
    fieldVarCalls defs lib simDim f.numComponents (fieldAdiosType f) f.name n ++
      fieldsVarCalls defs lib fs (n + f.numComponents)

/-- The sum of the component counts of a list of fields. -/
def totalComponents {α : Type} {simDim : Nat} (fields : List (FileOutputField α simDim)) :
    Nat :=
  (fields.map fun f => f.numComponents).sum

/-- The ids the library returns for `k` consecutive declarations after `n` earlier
ones. -/
def idsFrom (lib : AdiosLib) (n k : Nat) : List Int :=
  (List.range k).map fun j => lib.define_var_id (n + j)

/-- The three declarations of `defineAdiosFieldVars` for dimension `d`, with the ids
`sizeIds d`, `totalIds d`, `offsetIds d` they return. -/
def axisVarCalls {α : Type} {simDim : Nat} (defs : Defs)
    (sizeIds totalIds offsetIds : Fin simDim → Int) (d : Fin simDim) : List (AdiosCall α) :=
  [AdiosCall.adios_define_var (defs.ADIOS_SIZE_LOCAL ++ name_lookup d.val)
     ADIOS_DATATYPES.adios_integer none none none (sizeIds d),
   AdiosCall.adios_define_var (defs.ADIOS_SIZE_GLOBAL ++ name_lookup d.val)
     ADIOS_DATATYPES.adios_integer none none none (totalIds d),
   AdiosCall.adios_define_var (defs.ADIOS_OFFSET_GLOBAL ++ name_lookup d.val)
     ADIOS_DATATYPES.adios_integer none none none (offsetIds d)]

/-- The id the library returns for the `k`-th of the three declarations of dimension
`d` in `defineAdiosFieldVars` (`k = 0` local size, `1` global size, `2` global offset),
when `n` variables have been defined before the loop. -/
def axisId {simDim : Nat} (lib : AdiosLib) (n k : Nat) (d : Fin simDim) : Int :=
  lib.define_var_id (n + 3 * d.val + k)

/-- The constants of `ADIOSWriter.def` used in the examples. -/
def exampleDefs : Defs :=
  { ADIOS_FIELDS_NAME := "fields"
    ADIOS_SIZE_LOCAL := "size_"
    ADIOS_SIZE_GLOBAL := "totalSize_"
    ADIOS_OFFSET_GLOBAL := "offset_"
    ADIOS_INVALID_HANDLE := -1 }

/-- A library that numbers the variables in the order of their definition and opens
every file with handle `7`. -/
def exampleLib : AdiosLib :=
  { define_var_id := fun k => (k : Int), open_fd := fun _ => 7 }

/-- The state of a rank of a 2-D run at the start of a write cycle: grid position and
window as given, empty trace, no variable defined. -/
def rankState (gridPosition localOffset localSize globalSimulationOffset
    globalWindowSize : DataSpace 2) : State Nat 2 :=
  { params :=
      { currentStep := 0
        fullFilename := "simDataAdios_0.bp"
        adiosFileHandle := -1
        adiosGroupSize := 0
        adiosFieldVarIds := []
        adiosSizeVarIds := fun _ => 0
        adiosTotalSizeVarIds := fun _ => 0
        adiosOffsetVarIds := fun _ => 0
        fieldBfr := fun _ => 0
        fieldBfrLength := localSize.productOfComponents
        gridLayout := { dataSpace := fun _ => 0, guard := fun _ => 0 }
        gridPosition := gridPosition
        window :=
          { localOffset := localOffset
            localSize := localSize
            localFullSize := localSize
            globalSimulationOffset := globalSimulationOffset
            globalWindowSize := globalWindowSize
            globalSimulationSize := globalWindowSize
            slides := 0
            isBottom := false } }
    calls := []
    definedVars := 0 }

/-- A field with one component on a 52 x 102 grid with guard width 1. -/
def scalarField : FileOutputField Nat 2 :=
  { name := "FieldRho"
    numComponents := 1
    fieldTmpOperation := none
    gridLayout := { dataSpace := ![52, 102], guard := ![1, 1] }
    hostData := indexSource }

/-- A field with three components on a 7 x 6 x 6 grid with guard width 2. -/
def vectorField : FileOutputField Nat 3 :=
  { name := "FieldE"
    numComponents := 3
    fieldTmpOperation := none
    gridLayout := smallLayout
    hostData := indexSource }

/-- A derived field with one component of 8 bytes on the same grid. -/
def derivedField : FileOutputField Nat 3 :=
  { name := "FieldTmp_e"
    numComponents := 1
    fieldTmpOperation := some ("double", 8)
    gridLayout := smallLayout
    hostData := indexSource }

/-- The virtual window of the bottom rank of a 2-D run of 1 x 3 ranks, each with
50 x 100 cells, whose moving window of 50 x 200 cells has moved by 52 cells: the rank
shows 50 x 52 cells of the `localFullSize` it has allocated. -/
def bottomWindow (localFullSize globalSimulationSize : DataSpace 2) (isBottom : Bool) :
    VirtualWindow 2 :=
  { localOffset := ![0, 0]
    localSize := ![50, 52]
    localFullSize := localFullSize
    globalSimulationOffset := ![0, 52]
    globalWindowSize := ![50, 200]
    globalSimulationSize := globalSimulationSize
    slides := 1
    isBottom := isBottom }

/-- The state with the virtual window replaced by `w`. -/
def State.withWindow {α : Type} {simDim : Nat} (st : State α simDim)
    (w : VirtualWindow simDim) : State α simDim :=
  { st with params := { st.params with window := w } }

/-- The state of that bottom rank (grid position `(0, 200)`) at the start of a write
cycle, with the given virtual window. -/
def bottomRankState (window : VirtualWindow 2) : State Nat 2 :=
  (rankState ![0, 200] ![0, 0] ![50, 52] ![0, 52] ![50, 200]).withWindow window

/-! ## notify -/

/-- The library function a call goes to. -/
inductive CallKind where
  | adios_declare_group
  | adios_select_method
  | adios_define_var
  | adios_open
  | adios_group_size
  | adios_write
  | adios_write_byid
  | adios_close
  | MPI_Barrier
  deriving DecidableEq, Repr

/-- The library function of a call. -/
def AdiosCall.kind {α : Type} : AdiosCall α → CallKind
  | AdiosCall.adios_declare_group _ _ => CallKind.adios_declare_group
  | AdiosCall.adios_select_method _ => CallKind.adios_select_method
  | AdiosCall.adios_define_var _ _ _ _ _ _ => CallKind.adios_define_var
  | AdiosCall.adios_open _ _ _ _ => CallKind.adios_open
  | AdiosCall.adios_group_size _ _ => CallKind.adios_group_size
  | AdiosCall.adios_write _ _ _ => CallKind.adios_write
  | AdiosCall.adios_write_byid _ _ _ => CallKind.adios_write_byid
  | AdiosCall.adios_close _ => CallKind.adios_close
  | AdiosCall.MPI_Barrier => CallKind.MPI_Barrier

/-- The size passed to an `adios_group_size` call. -/
def AdiosCall.reserved {α : Type} : AdiosCall α → Option Nat
  | AdiosCall.adios_group_size _ dataSize => some dataSize
  | _ => none

/-- The declarations of a cycle of `writeAdios` started when `n` variables have been
defined: the group set-up, the two scalars, three variables per dimension and one
variable per field component. -/
def declaringCalls {α : Type} {simDim : Nat} (defs : Defs) (lib : AdiosLib)
    (fields : List (FileOutputField α simDim)) (n : Nat) : List (AdiosCall α) :=
  [AdiosCall.adios_declare_group defs.ADIOS_FIELDS_NAME "iteration",
   AdiosCall.adios_select_method "MPI",
   AdiosCall.adios_define_var "iteration" ADIOS_DATATYPES.adios_unsigned_integer
     none none none (lib.define_var_id n),
   AdiosCall.adios_define_var "sim_slides" ADIOS_DATATYPES.adios_unsigned_integer
     none none none (lib.define_var_id (n + 1))] ++
  (List.finRange simDim).flatMap
    (axisVarCalls defs (axisId lib (n + 2) 0) (axisId lib (n + 2) 1) (axisId lib (n + 2) 2)) ++
  fieldsVarCalls defs lib fields (n + 2 + 3 * simDim)

/-- A library whose open call leaves the invalid handle of `exampleDefs`. -/
def failingLib : AdiosLib :=
  { define_var_id := fun k => (k : Int), open_fd := fun _ => -1 }

/-- A padded shape of a single cell, without guard. -/
def tinyLayout : GridLayout 3 := { dataSpace := ![1, 1, 1], guard := ![0, 0, 0] }

/-- A local size of 2 x 1 x 1 cells. -/
def longLocalSize : DataSpace 3 := ![2, 1, 1]

/-- A 2-D padded shape of 4 x 4 cells with guard width 1. -/
def flatLayout : GridLayout 2 := { dataSpace := ![4, 4], guard := ![1, 1] }

/-- A 2-D local size of 2 x 2 cells. -/
def flatLocalSize : DataSpace 2 := ![2, 2]

/-- Memory past the end of the 2-D vectors of `writeField` that happens to hold the
values of a third dimension of extent one: padded extent 1, local extent 1, guard 0. -/
def unitPast : PastEnd :=
  { field_full := fun _ => 1, field_no_guard := fun _ => 1, field_guard := fun _ => 0 }

theorem toSizeT_natCast (n : Nat) : toSizeT (n : Int) = n % 18446744073709551616 := by
  unfold toSizeT
  have : ((n : Int) % 18446744073709551616) = ((n % 18446744073709551616 : Nat) : Int) := by
    norm_cast
  rw [this, Int.toNat_natCast]

theorem toUInt32_natCast (n : Nat) : toUInt32 (n : Int) = n % 4294967296 := by
  unfold toUInt32
  have : ((n : Int) % 4294967296) = ((n % 4294967296 : Nat) : Int) := by
    norm_cast
  rw [this, Int.toNat_natCast]

theorem rowMajor_lt {a b c A B C : Nat} (ha : a < A) (hb : b < B) (hc : c < C) :
    c * (B * A) + b * A + a < C * (B * A) := by
  have h1 : b * A + a < B * A := by
    have : (b + 1) * A ≤ B * A := Nat.mul_le_mul_right A hb
    have e : (b + 1) * A = b * A + A := by ring
    omega
  have h2 : (c + 1) * (B * A) ≤ C * (B * A) := Nat.mul_le_mul_right _ hc
  have e : (c + 1) * (B * A) = c * (B * A) + B * A := by ring
  omega

theorem rowMajor_inj {A B : Nat} {a b c a2 b2 c2 : Nat} (ha : a < A) (hb : b < B)
    (ha2 : a2 < A) (hb2 : b2 < B)
    (h : c * (B * A) + b * A + a = c2 * (B * A) + b2 * A + a2) :
    a = a2 ∧ b = b2 ∧ c = c2 := by
  have hA : 0 < A := by omega
  have hB : 0 < B := by omega
  have e1 : (c * (B * A) + b * A + a) % A = a := by
    have : c * (B * A) + b * A + a = a + A * (c * B + b) := by ring
    rw [this, Nat.add_mul_mod_self_left, Nat.mod_eq_of_lt ha]
  have e2 : (c2 * (B * A) + b2 * A + a2) % A = a2 := by
    have : c2 * (B * A) + b2 * A + a2 = a2 + A * (c2 * B + b2) := by ring
    rw [this, Nat.add_mul_mod_self_left, Nat.mod_eq_of_lt ha2]
  have hax : a = a2 := by rw [← e1, ← e2, h]
  subst hax
  have d1 : (c * (B * A) + b * A + a) / A = c * B + b := by
    have : c * (B * A) + b * A + a = a + A * (c * B + b) := by ring
    rw [this, Nat.add_mul_div_left _ _ hA, Nat.div_eq_of_lt ha, Nat.zero_add]
  have d2 : (c2 * (B * A) + b2 * A + a) / A = c2 * B + b2 := by
    have : c2 * (B * A) + b2 * A + a = a + A * (c2 * B + b2) := by ring
    rw [this, Nat.add_mul_div_left _ _ hA, Nat.div_eq_of_lt ha, Nat.zero_add]
  have h3 : c * B + b = c2 * B + b2 := by rw [← d1, ← d2, h]
  have f1 : (c * B + b) % B = b := by
    have : c * B + b = b + B * c := by ring
    rw [this, Nat.add_mul_mod_self_left, Nat.mod_eq_of_lt hb]
  have f2 : (c2 * B + b2) % B = b2 := by
    have : c2 * B + b2 = b2 + B * c2 := by ring
    rw [this, Nat.add_mul_mod_self_left, Nat.mod_eq_of_lt hb2]
  have hbx : b = b2 := by rw [← f1, ← f2, h3]
  subst hbx
  have g1 : (c * B + b) / B = c := by
    have : c * B + b = b + B * c := by ring
    rw [this, Nat.add_mul_div_left _ _ hB, Nat.div_eq_of_lt hb, Nat.zero_add]
  have g2 : (c2 * B + b) / B = c2 := by
    have : c2 * B + b = b + B * c2 := by ring
    rw [this, Nat.add_mul_div_left _ _ hB, Nat.div_eq_of_lt hb, Nat.zero_add]
  have hcx : c = c2 := by rw [← g1, ← g2, h3]
  exact ⟨rfl, rfl, hcx⟩

theorem idx3_0 (v : DataSpace 3) (p : Nat → Int) : v.idx 0 p = v 0 := by
  simp [DataSpace.idx]

theorem idx3_1 (v : DataSpace 3) (p : Nat → Int) : v.idx 1 p = v 1 := by
  simp [DataSpace.idx]

theorem idx3_2 (v : DataSpace 3) (p : Nat → Int) : v.idx 2 p = v 2 := by
  simp [DataSpace.idx]

theorem index_dst_nat (N : DataSpace 3) (N' : Fin 3 → Nat) (hN : ∀ i, N i = (N' i : Int))
    (past : PastEnd) (z y x : Nat) :
    index_dst N past z y x =
      addSizeT
        (addSizeT (mulSizeT (z % 18446744073709551616) ((N' 1 * N' 0) % 18446744073709551616))
          ((y * N' 0) % 18446744073709551616))
        (x % 18446744073709551616) := by
  unfold index_dst base_index_dst plane_no_guard_size
  rw [idx3_0, idx3_1, hN 0, hN 1, ← Nat.cast_mul, ← Nat.cast_mul]
  simp only [toSizeT_natCast]

theorem index_src_nat (F G : DataSpace 3) (F' G' : Fin 3 → Nat)
    (hF : ∀ i, F i = (F' i : Int)) (hG : ∀ i, G i = (G' i : Int))
    (past : PastEnd) (C d z y x : Nat) :
    index_src F G past C d z y x =
      addSizeT
        (addSizeT
          (addSizeT
            (mulSizeT ((z + G' 2) % 18446744073709551616)
              (mulU32 ((F' 1 * F' 0) % 4294967296) C))
            (mulU32 (((y + G' 1) * F' 0) % 4294967296) C))
          (mulU32 ((x + G' 0) % 4294967296) C))
        d := by
  unfold index_src base_index_src plane_full_size
  rw [idx3_0, idx3_1, idx3_0, idx3_1, idx3_2, hF 0, hF 1, hG 0, hG 1, hG 2]
  simp only [← Nat.cast_mul, ← Nat.cast_add, toSizeT_natCast, toUInt32_natCast]

theorem addSizeT_eq {a b : Nat} (h : a + b < 18446744073709551616) : addSizeT a b = a + b :=
  Nat.mod_eq_of_lt h

theorem mulSizeT_eq {a b : Nat} (h : a * b < 18446744073709551616) : mulSizeT a b = a * b :=
  Nat.mod_eq_of_lt h

theorem mulU32_eq {a b : Nat} (h : a * b < 4294967296) : mulU32 a b = a * b :=
  Nat.mod_eq_of_lt h

theorem index_dst_eq (N : DataSpace 3) (N' : Fin 3 → Nat) (hN : ∀ i, N i = (N' i : Int))
    (past : PastEnd) (z y x : Nat) (hx : x < N' 0) (hy : y < N' 1) (hz : z < N' 2)
    (hfit : N' 2 * (N' 1 * N' 0) < 18446744073709551616) :
    index_dst N past z y x = z * (N' 1 * N' 0) + y * N' 0 + x := by
  have htot := rowMajor_lt hx hy hz
  have hp : 1 ≤ N' 1 * N' 0 := Nat.mul_pos (by omega) (by omega)
  have h1 : N' 1 * N' 0 ≤ N' 2 * (N' 1 * N' 0) := Nat.le_mul_of_pos_left _ (by omega)
  have h2 : z ≤ z * (N' 1 * N' 0) := Nat.le_mul_of_pos_right _ hp
  rw [index_dst_nat N N' hN]
  have i1 : mulSizeT z (N' 1 * N' 0) = z * (N' 1 * N' 0) := mulSizeT_eq (by omega)
  have i2 : addSizeT (z * (N' 1 * N' 0)) (y * N' 0) = z * (N' 1 * N' 0) + y * N' 0 :=
    addSizeT_eq (by omega)
  have i3 : addSizeT (z * (N' 1 * N' 0) + y * N' 0) x = z * (N' 1 * N' 0) + y * N' 0 + x :=
    addSizeT_eq (by omega)
  rw [Nat.mod_eq_of_lt (a := z) (by omega), Nat.mod_eq_of_lt (a := N' 1 * N' 0) (by omega),
    Nat.mod_eq_of_lt (a := y * N' 0) (by omega), Nat.mod_eq_of_lt (a := x) (by omega),
    i1, i2, i3]

theorem index_src_eq (F G : DataSpace 3) (F' G' : Fin 3 → Nat)
    (hF : ∀ i, F i = (F' i : Int)) (hG : ∀ i, G i = (G' i : Int))
    (past : PastEnd) (C d z y x : Nat)
    (hx : x + G' 0 < F' 0) (hy : y + G' 1 < F' 1) (hz : z + G' 2 < F' 2) (hd : d < C)
    (hplane : F' 1 * F' 0 * C < 4294967296)
    (hfit : F' 2 * (F' 1 * F' 0) * C < 18446744073709551616) :
    index_src F G past C d z y x =
      ((z + G' 2) * (F' 1 * F' 0) + (y + G' 1) * F' 0 + (x + G' 0)) * C + d := by
  have htot := rowMajor_lt hx hy hz
  have hC : 1 ≤ C := by omega
  have hp : 1 ≤ F' 1 * F' 0 := Nat.mul_pos (by omega) (by omega)
  -- the exact index is below the element count
  have hlt : ((z + G' 2) * (F' 1 * F' 0) + (y + G' 1) * F' 0 + (x + G' 0)) * C + d <
      F' 2 * (F' 1 * F' 0) * C := by
    have : ((z + G' 2) * (F' 1 * F' 0) + (y + G' 1) * F' 0 + (x + G' 0) + 1) * C ≤
        F' 2 * (F' 1 * F' 0) * C := Nat.mul_le_mul_right C htot
    have e : ((z + G' 2) * (F' 1 * F' 0) + (y + G' 1) * F' 0 + (x + G' 0) + 1) * C =
        ((z + G' 2) * (F' 1 * F' 0) + (y + G' 1) * F' 0 + (x + G' 0)) * C + C := by ring
    omega
  have e : ((z + G' 2) * (F' 1 * F' 0) + (y + G' 1) * F' 0 + (x + G' 0)) * C =
      (z + G' 2) * (F' 1 * F' 0 * C) + (y + G' 1) * F' 0 * C + (x + G' 0) * C := by ring
  rw [e] at hlt ⊢
  have b1 : F' 1 * F' 0 ≤ F' 1 * F' 0 * C := Nat.le_mul_of_pos_right _ hC
  have b2 : (y + G' 1) * F' 0 ≤ F' 1 * F' 0 := Nat.mul_le_mul_right _ (by omega)
  have b3 : (y + G' 1) * F' 0 * C ≤ F' 1 * F' 0 * C := Nat.mul_le_mul_right _ b2
  have b4 : x + G' 0 ≤ F' 1 * F' 0 := by
    have : F' 0 ≤ F' 1 * F' 0 := Nat.le_mul_of_pos_left _ (by omega)
    omega
  have b5 : (x + G' 0) * C ≤ F' 1 * F' 0 * C := Nat.mul_le_mul_right _ b4
  have b6 : z + G' 2 ≤ (z + G' 2) * (F' 1 * F' 0 * C) := Nat.le_mul_of_pos_right _ (by omega)
  have i1 : mulSizeT (z + G' 2) (F' 1 * F' 0 * C) = (z + G' 2) * (F' 1 * F' 0 * C) :=
    mulSizeT_eq (by omega)
  have i2 : addSizeT ((z + G' 2) * (F' 1 * F' 0 * C)) ((y + G' 1) * F' 0 * C) =
      (z + G' 2) * (F' 1 * F' 0 * C) + (y + G' 1) * F' 0 * C := addSizeT_eq (by omega)
  have i3 : addSizeT ((z + G' 2) * (F' 1 * F' 0 * C) + (y + G' 1) * F' 0 * C)
      ((x + G' 0) * C) =
      (z + G' 2) * (F' 1 * F' 0 * C) + (y + G' 1) * F' 0 * C + (x + G' 0) * C :=
    addSizeT_eq (by omega)
  have i4 : addSizeT
      ((z + G' 2) * (F' 1 * F' 0 * C) + (y + G' 1) * F' 0 * C + (x + G' 0) * C) d =
      (z + G' 2) * (F' 1 * F' 0 * C) + (y + G' 1) * F' 0 * C + (x + G' 0) * C + d :=
    addSizeT_eq (by omega)
  rw [index_src_nat F G F' G' hF hG]
  rw [Nat.mod_eq_of_lt (a := z + G' 2) (by omega),
    Nat.mod_eq_of_lt (a := F' 1 * F' 0) (by omega),
    Nat.mod_eq_of_lt (a := (y + G' 1) * F' 0) (by omega),
    Nat.mod_eq_of_lt (a := x + G' 0) (by omega),
    mulU32_eq (a := F' 1 * F' 0) (by omega), mulU32_eq (a := (y + G' 1) * F' 0) (by omega),
    mulU32_eq (a := x + G' 0) (by omega),
    i1, i2, i3, i4]

theorem mem_copyIndices (F N G : DataSpace 3) (N' : Fin 3 → Nat)
    (hN : ∀ i, N i = (N' i : Int)) (past : PastEnd) (C d : Nat) (p : Nat × Nat) :
    p ∈ copyIndices F N G past C d ↔
      ∃ z, z < N' 2 ∧ ∃ y, y < N' 1 ∧ ∃ x, x < N' 0 ∧
        p = (index_dst N past z y x, index_src F G past C d z y x) := by
  unfold copyIndices
  rw [idx3_0, idx3_1, idx3_2, hN 0, hN 1, hN 2]
  simp only [Int.toNat_natCast, List.mem_flatMap, List.mem_map, List.mem_range]
  constructor
  · rintro ⟨z, hz, y, hy, x, hx, rfl⟩
    exact ⟨z, hz, y, hy, x, hx, rfl⟩
  · rintro ⟨z, hz, y, hy, x, hx, rfl⟩
    exact ⟨z, hz, y, hy, x, hx, rfl⟩

theorem foldl_assign_of_mem {α : Type} (ptr : Nat → α) (v : α) (p : Nat) :
    ∀ (L : List (Nat × Nat)) (bfr : Nat → α),
      (∀ q ∈ L, q.1 = p → ptr q.2 = v) →
      ((∃ q ∈ L, q.1 = p) ∨ bfr p = v) →
      L.foldl (assign ptr) bfr p = v := by
  intro L
  induction L with
  | nil =>
    intro bfr _ h
    rcases h with ⟨q, hq, _⟩ | h
    · cases hq
    · exact h
  | cons a L ih =>
    intro bfr hall h
    rw [List.foldl_cons]
    apply ih
    · intro q hq
      exact hall q (List.mem_cons_of_mem _ hq)
    · by_cases ha : a.1 = p
      · right
        have : ptr a.2 = v := hall a (List.mem_cons_self _ _) ha
        simp [assign, ha, this]
      · rcases h with ⟨q, hq, hqp⟩ | h
        · rcases List.mem_cons.mp hq with rfl | hq2
          · exact absurd hqp ha
          · exact Or.inl ⟨q, hq2, hqp⟩
        · right
          have hne : p ≠ a.1 := fun e => ha e.symm
          simp [assign, hne, h]

/-- The state `writeFieldLoop` reaches: the handles of the processed components are
taken from the front of the queue, the staged writes are appended to the trace, and
nothing else but the staging buffer changes. -/
theorem writeFieldLoop_spec {α : Type} {simDim : Nat} (F N G : DataSpace simDim)
    (past : PastEnd) (C : Nat) (ptr : Nat → α) :
    ∀ (ds : List Nat) (st : State α simDim),
      ∃ bfr : Nat → α,
        (writeFieldLoop F N G past C ptr ds st).state =
          { st with
            params := { st.params with
              fieldBfr := bfr
              adiosFieldVarIds := st.params.adiosFieldVarIds.drop ds.length }
            calls := st.calls ++
              stagedWrites F N G past C ptr st.params.adiosFileHandle ds
                st.params.adiosFieldVarIds st.params.fieldBfr } ∧
        (writeFieldLoop F N G past C ptr ds st).error =
          (if st.params.adiosFieldVarIds.length < ds.length then
            some "Cannot write field (var id list is empty)" else none) := by
  intro ds
  induction ds with
  | nil =>
    intro st
    refine ⟨st.params.fieldBfr, ?_, ?_⟩
    · simp [writeFieldLoop, stagedWrites]
    · simp [writeFieldLoop]
  | cons d ds ih =>
    intro st
    rcases st with ⟨params, calls, definedVars⟩
    rcases hq : params.adiosFieldVarIds with _ | ⟨id, rest⟩
    · refine ⟨copyComponent F N G past C d ptr params.fieldBfr, ?_, ?_⟩
      · simp [writeFieldLoop, stagedWrites, hq]
      · simp [writeFieldLoop, hq]
    · obtain ⟨bfr, h1, h2⟩ := ih
        { params := { params with
            fieldBfr := copyComponent F N G past C d ptr params.fieldBfr
            adiosFieldVarIds := rest }
          calls := calls ++ [AdiosCall.adios_write_byid params.adiosFileHandle id
            (Payload.buffer (copyComponent F N G past C d ptr params.fieldBfr))]
          definedVars := definedVars }
      refine ⟨bfr, ?_, ?_⟩
      · simp only [writeFieldLoop, hq]
        rw [h1]
        simp [stagedWrites, hq]
      · simp only [writeFieldLoop, hq]
        rw [h2]
        simp

theorem stagedWrites_written {α : Type} {simDim : Nat} (F N G : DataSpace simDim)
    (past : PastEnd) (C : Nat) (ptr : Nat → α) (fd : Int) :
    ∀ (ds : List Nat) (ids : List Int) (bfr : Nat → α),
      (stagedWrites F N G past C ptr fd ds ids bfr).map AdiosCall.written =
        (ids.take ds.length).map (fun id => some (Sum.inr id)) := by
  intro ds
  induction ds with
  | nil => intro ids bfr; simp [stagedWrites]
  | cons d ds ih =>
    intro ids bfr
    cases ids with
    | nil => simp [stagedWrites]
    | cons id ids => simp [stagedWrites, ih, AdiosCall.written]

theorem stagedWrites_fieldWriteId {α : Type} {simDim : Nat} (F N G : DataSpace simDim)
    (past : PastEnd) (C : Nat) (ptr : Nat → α) (fd : Int) :
    ∀ (ds : List Nat) (ids : List Int) (bfr : Nat → α),
      (stagedWrites F N G past C ptr fd ds ids bfr).map AdiosCall.fieldWriteId =
        (ids.take ds.length).map some := by
  intro ds
  induction ds with
  | nil => intro ids bfr; simp [stagedWrites]
  | cons d ds ih =>
    intro ids bfr
    cases ids with
    | nil => simp [stagedWrites]
    | cons id ids => simp [stagedWrites, ih, AdiosCall.fieldWriteId]

theorem stagedWrites_length {α : Type} {simDim : Nat} (F N G : DataSpace simDim)
    (past : PastEnd) (C : Nat) (ptr : Nat → α) (fd : Int)
    (ds : List Nat) (ids : List Int) (bfr : Nat → α) :
    (stagedWrites F N G past C ptr fd ds ids bfr).length = min ds.length ids.length := by
  have h := congrArg List.length (stagedWrites_written F N G past C ptr fd ds ids bfr)
  simpa using h

theorem stagedWrites_get {α : Type} {simDim : Nat} (F N G : DataSpace simDim)
    (past : PastEnd) (C : Nat) (ptr : Nat → α) (fd : Int) :
    ∀ (ds : List Nat) (ids : List Int) (bfr : Nat → α) (k d : Nat) (id : Int),
      ds[k]? = some d → ids[k]? = some id →
      ∃ before : Nat → α,
        (stagedWrites F N G past C ptr fd ds ids bfr)[k]? =
          some (AdiosCall.adios_write_byid fd id
            (Payload.buffer (copyComponent F N G past C d ptr before))) := by
  intro ds
  induction ds with
  | nil => intro ids bfr k d id h; simp at h
  | cons d0 ds ih =>
    intro ids bfr k d id hd hid
    cases ids with
    | nil => simp at hid
    | cons id0 ids =>
      cases k with
      | zero =>
        simp at hd hid
        subst hd; subst hid
        exact ⟨bfr, by simp [stagedWrites]⟩
      | succ k =>
        simp at hd hid
        obtain ⟨before, hb⟩ := ih ids (copyComponent F N G past C d0 ptr bfr) k d id hd hid
        exact ⟨before, by simpa [stagedWrites] using hb⟩

theorem writeField_spec {α : Type} {simDim : Nat} (past : PastEnd) (st : State α simDim)
    (domInfo : DomainInformation simDim) (C : Nat) (ptr : Nat → α) :
    ∃ bfr : Nat → α,
      (writeField past st domInfo C ptr).state =
        { st with
          params := { st.params with
            fieldBfr := bfr
            adiosFieldVarIds := st.params.adiosFieldVarIds.drop C }
          calls := st.calls ++
            stagedWrites st.params.gridLayout.dataSpace domInfo.domainSize
              (st.params.gridLayout.guard + domInfo.localDomainOffset) past C ptr
              st.params.adiosFileHandle (List.range C) st.params.adiosFieldVarIds
              st.params.fieldBfr } ∧
      (writeField past st domInfo C ptr).error =
        (if st.params.adiosFieldVarIds.length < C then
          some "Cannot write field (var id list is empty)" else none) := by
  obtain ⟨bfr, h1, h2⟩ := writeFieldLoop_spec st.params.gridLayout.dataSpace domInfo.domainSize
    (st.params.gridLayout.guard + domInfo.localDomainOffset) past C ptr (List.range C) st
  refine ⟨bfr, ?_, ?_⟩
  · simpa [writeField] using h1
  · simpa [writeField] using h2

/-! ## C1: the staged buffer of one component -/

/-- The staged buffer where the 32-bit products of `writeField` do not wrap: for a 3-D
layout with padded shape `F`, guard offset `G = layout guard + localDomainOffset`,
local size `N` with `G + N ≤ F`, component `d < nComponents`, provided the interleaved
plane size `F 1 * F 0 * nComponents` is below `2^32` and the element count of the
padded buffer is below `2^64`: the call
`writeField` issues for component `d` is the `adios_write_byid` through the `d`-th
queued handle, and the staging buffer it hands over satisfies
`staging[z*Ny*Nx + y*Nx + x] = source[((z+Gz)*Fy*Fx + (y+Gy)*Fx + (x+Gx))*C + d]` for
every cell of the local region. -/
theorem writeField_staged_component {α : Type} (past : PastEnd) (st : State α 3)
    (domInfo : DomainInformation 3) (nComponents d : Nat) (ptr : Nat → α)
    (F G N : Fin 3 → Nat)
    (hF : ∀ i, st.params.gridLayout.dataSpace i = (F i : Int))
    (hG : ∀ i, st.params.gridLayout.guard i + domInfo.localDomainOffset i = (G i : Int))
    (hN : ∀ i, domInfo.domainSize i = (N i : Int))
    (hfit : ∀ i, G i + N i ≤ F i)
    (hd : d < nComponents)
    (hplane : F 1 * F 0 * nComponents < 2 ^ 32)
    (hsize : F 0 * F 1 * F 2 * nComponents < 2 ^ 64)
    (hq : d < st.params.adiosFieldVarIds.length) :
    ∃ (id : Int) (staging : Nat → α),
      st.params.adiosFieldVarIds[d]? = some id ∧
      (writeField past st domInfo nComponents ptr).state.calls[st.calls.length + d]? =
        some (AdiosCall.adios_write_byid st.params.adiosFileHandle id
          (Payload.buffer staging)) ∧
      ∀ x y z : Nat, x < N 0 → y < N 1 → z < N 2 →
        staging (z * N 1 * N 0 + y * N 0 + x) =
          ptr (((z + G 2) * F 1 * F 0 + (y + G 1) * F 0 + (x + G 0)) * nComponents + d) := by
  obtain ⟨bfr, h1, -⟩ := writeField_spec past st domInfo nComponents ptr
  have hid : st.params.adiosFieldVarIds[d]? = some (st.params.adiosFieldVarIds[d]) :=
    List.getElem?_eq_getElem hq
  have hdr : (List.range nComponents)[d]? = some d := by
    rw [List.getElem?_range hd]
  obtain ⟨before, hb⟩ := stagedWrites_get st.params.gridLayout.dataSpace domInfo.domainSize
    (st.params.gridLayout.guard + domInfo.localDomainOffset) past nComponents ptr
    st.params.adiosFileHandle (List.range nComponents) st.params.adiosFieldVarIds
    st.params.fieldBfr d d _ hdr hid
  refine ⟨st.params.adiosFieldVarIds[d],
    copyComponent st.params.gridLayout.dataSpace domInfo.domainSize
      (st.params.gridLayout.guard + domInfo.localDomainOffset) past nComponents d ptr before,
    hid, ?_, ?_⟩
  · rw [h1]
    simp only []
    rw [List.getElem?_append_right (Nat.le_add_right _ _), Nat.add_sub_cancel_left]
    exact hb
  · intro x y z hx hy hz
    have hG2 : ∀ i, (st.params.gridLayout.guard + domInfo.localDomainOffset) i = (G i : Int) :=
      fun i => by rw [Pi.add_apply]; exact hG i
    have hplane2 : F 1 * F 0 * nComponents < 4294967296 := by simpa using hplane
    have hsize2 : F 2 * (F 1 * F 0) * nComponents < 18446744073709551616 := by
      have e : F 2 * (F 1 * F 0) * nComponents = F 0 * F 1 * F 2 * nComponents := by ring
      rw [e]; simpa using hsize
    have f0 := hfit 0
    have f1 := hfit 1
    have f2 := hfit 2
    have hC : 1 ≤ nComponents := by omega
    have hNF : N 2 * (N 1 * N 0) < 18446744073709551616 := by
      have a1 : N 1 * N 0 ≤ F 1 * F 0 := Nat.mul_le_mul (by omega) (by omega)
      have a2 : N 2 * (N 1 * N 0) ≤ F 2 * (F 1 * F 0) := Nat.mul_le_mul (by omega) a1
      have a3 : F 2 * (F 1 * F 0) ≤ F 2 * (F 1 * F 0) * nComponents :=
        Nat.le_mul_of_pos_right _ hC
      omega
    unfold copyComponent
    apply foldl_assign_of_mem
    · intro q hq hq1
      rw [mem_copyIndices _ _ _ N hN] at hq
      obtain ⟨z2, hz2, y2, hy2, x2, hx2, rfl⟩ := hq
      simp only [] at hq1 ⊢
      rw [index_dst_eq _ N hN past z2 y2 x2 hx2 hy2 hz2 hNF] at hq1
      have e : z * N 1 * N 0 + y * N 0 + x = z * (N 1 * N 0) + y * N 0 + x := by ring
      rw [e] at hq1
      obtain ⟨rfl, rfl, rfl⟩ := rowMajor_inj hx2 hy2 hx hy hq1
      rw [index_src_eq _ _ F G hF hG2 past nComponents d z2 y2 x2 (by omega) (by omega)
        (by omega) hd hplane2 hsize2]
      congr 1
      ring
    · left
      refine ⟨(index_dst domInfo.domainSize past z y x,
        index_src st.params.gridLayout.dataSpace
          (st.params.gridLayout.guard + domInfo.localDomainOffset) past nComponents d z y x),
        ?_, ?_⟩
      · rw [mem_copyIndices _ _ _ N hN]
        exact ⟨z, hz, y, hy, x, hx, rfl⟩
      · simp only []
        rw [index_dst_eq _ N hN past z y x hx hy hz hNF]
        ring

/-- Witness for `writeField_staged_component`: guard width 2, local size 3 x 2 x 2
(odd and even extents), three components, component 1. -/
theorem writeField_staged_component_witness :
    (∀ i : Fin 3, (![2, 2, 2] : Fin 3 → Nat) i + (![3, 2, 2] : Fin 3 → Nat) i ≤
      (![7, 6, 6] : Fin 3 → Nat) i) ∧
    (![7, 6, 6] : Fin 3 → Nat) 1 * (![7, 6, 6] : Fin 3 → Nat) 0 * 3 < 2 ^ 32 ∧
    ∃ (id : Int) (staging : Nat → Nat),
      (stateOf smallLayout smallLocalSize [11, 12, 13]).params.adiosFieldVarIds[1]? = some id ∧
      (writeField noPast (stateOf smallLayout smallLocalSize [11, 12, 13])
        (primaryDomainInfo (windowOfSize smallLocalSize) (fun _ => 0)) 3
        indexSource).state.calls[
          (stateOf smallLayout smallLocalSize [11, 12, 13]).calls.length + 1]? =
        some (AdiosCall.adios_write_byid
          (stateOf smallLayout smallLocalSize [11, 12, 13]).params.adiosFileHandle id
          (Payload.buffer staging)) ∧
      ∀ x y z : Nat, x < (![3, 2, 2] : Fin 3 → Nat) 0 → y < (![3, 2, 2] : Fin 3 → Nat) 1 →
        z < (![3, 2, 2] : Fin 3 → Nat) 2 →
        staging (z * (![3, 2, 2] : Fin 3 → Nat) 1 * (![3, 2, 2] : Fin 3 → Nat) 0 +
            y * (![3, 2, 2] : Fin 3 → Nat) 0 + x) =
          indexSource (((z + (![2, 2, 2] : Fin 3 → Nat) 2) * (![7, 6, 6] : Fin 3 → Nat) 1 *
              (![7, 6, 6] : Fin 3 → Nat) 0 +
            (y + (![2, 2, 2] : Fin 3 → Nat) 1) * (![7, 6, 6] : Fin 3 → Nat) 0 +
            (x + (![2, 2, 2] : Fin 3 → Nat) 0)) * 3 + 1) :=
  ⟨by decide, by decide,
    writeField_staged_component noPast (stateOf smallLayout smallLocalSize [11, 12, 13])
      (primaryDomainInfo (windowOfSize smallLocalSize) (fun _ => 0)) 3 1 indexSource
      ![7, 6, 6] ![2, 2, 2] ![3, 2, 2] (by decide) (by decide) (by decide) (by decide)
      (by decide) (by decide) (by decide) (by decide)⟩

/-- C1: `writeField` stages the wrong element for a large plane. With padded shape
40000 x 40000 x 2, no guard, local size 1 x 1 x 2 and three components (so
`G + N ≤ F` and `0 < 3`), the product `field_full[1] * field_full[0] * nComponents`,
although stored in a `size_t`, is computed in `uint32_t` and wraps before it is
widened, and the value staged for cell `(0, 0, 1)` of component 0 is not
`source[((1+0)*40000*40000 + (0+0)*40000 + (0+0))*3 + 0]` but `source[505032704]`. -/
theorem writeField_staged_component_wraps :
    (∀ i : Fin 3, (![0, 0, 0] : Fin 3 → Nat) i + (![1, 1, 2] : Fin 3 → Nat) i ≤
      (![40000, 40000, 2] : Fin 3 → Nat) i) ∧
    (0 : Nat) < 3 ∧
    ∃ staging : Nat → Nat,
      (writeField noPast (stateOf wideLayout wideLocalSize [11, 12, 13])
        (primaryDomainInfo (windowOfSize wideLocalSize) (fun _ => 0)) 3
        indexSource).state.calls[0]? =
        some (AdiosCall.adios_write_byid 7 11 (Payload.buffer staging)) ∧
      staging (1 * 1 * 1 + 0 * 1 + 0) ≠
        indexSource (((1 + 0) * 40000 * 40000 + (0 + 0) * 40000 + (0 + 0)) * 3 + 0) ∧
      staging (1 * 1 * 1 + 0 * 1 + 0) = indexSource 505032704 := by
  refine ⟨by decide, by decide, copyComponent wideLayout.dataSpace wideLocalSize
    (wideLayout.guard + (fun _ => 0)) noPast 3 0 indexSource (fun _ => 0), rfl, by decide,
    by decide⟩

/-! ## C2: the copy loops stay inside both buffers -/

theorem copyIndices_eq_nil {simDim : Nat} (F N G : DataSpace simDim) (past : PastEnd)
    (C d : Nat) (i : Fin simDim) (hi : i.val < 3) (h0 : N i ≤ 0) :
    copyIndices F N G past C d = [] := by
  have hidx : N.idx i.val past.field_no_guard = N i := by
    simp [DataSpace.idx]
  have hz : (N.idx i.val past.field_no_guard).toNat = 0 := by
    rw [hidx]; exact Int.toNat_eq_zero.mpr h0
  apply List.eq_nil_iff_forall_not_mem.mpr
  intro p hp
  unfold copyIndices at hp
  simp only [List.mem_flatMap, List.mem_map, List.mem_range] at hp
  obtain ⟨z, hz2, y, hy2, x, hx2, -⟩ := hp
  have hcases : i.val = 0 ∨ i.val = 1 ∨ i.val = 2 := by omega
  rcases hcases with h | h | h <;> rw [h] at hz <;> omega

theorem copyComponent_of_nil {α : Type} {simDim : Nat} (F N G : DataSpace simDim)
    (past : PastEnd) (C d : Nat) (ptr bfr : Nat → α) (h : copyIndices F N G past C d = []) :
    copyComponent F N G past C d ptr bfr = bfr := by
  unfold copyComponent
  rw [h]
  rfl

theorem stagedWrites_staged_of_nil {α : Type} {simDim : Nat} (F N G : DataSpace simDim)
    (past : PastEnd) (C : Nat) (ptr : Nat → α) (fd : Int)
    (h : ∀ d, copyIndices F N G past C d = []) :
    ∀ (ds : List Nat) (ids : List Int) (bfr : Nat → α),
      ∀ c ∈ stagedWrites F N G past C ptr fd ds ids bfr, c.staged = some bfr := by
  intro ds
  induction ds with
  | nil => intro ids bfr c hc; simp [stagedWrites] at hc
  | cons d ds ih =>
    intro ids bfr c hc
    cases ids with
    | nil => simp [stagedWrites] at hc
    | cons id ids =>
      simp only [stagedWrites, copyComponent_of_nil F N G past C d ptr bfr (h d),
        List.mem_cons] at hc
      rcases hc with rfl | hc
      · rfl
      · exact ih ids bfr c hc

theorem writeFieldLoop_fieldBfr_of_nil {α : Type} {simDim : Nat} (F N G : DataSpace simDim)
    (past : PastEnd) (C : Nat) (ptr : Nat → α)
    (h : ∀ d, copyIndices F N G past C d = []) :
    ∀ (ds : List Nat) (st : State α simDim),
      (writeFieldLoop F N G past C ptr ds st).state.params.fieldBfr = st.params.fieldBfr := by
  intro ds
  induction ds with
  | nil => intro st; rfl
  | cons d ds ih =>
    intro st
    rcases hq : st.params.adiosFieldVarIds with _ | ⟨id, rest⟩
    · simp [writeFieldLoop, hq, copyComponent_of_nil F N G past C d ptr _ (h d)]
    · simp only [writeFieldLoop, hq]
      rw [ih]
      simp [copyComponent_of_nil F N G past C d ptr _ (h d)]

/-- C6: `writeField` throws "Cannot write field (var id list is empty)" exactly when
the handle queue is shorter than the component count; in every case the calls it
issues are writes by id through the handles at the front of the queue, in queue order,
one per handle taken (at most `nComponents`), so that when it throws it has issued
exactly as many writes as handles were queued and none for a component without a
handle. -/
theorem writeField_throws_iff {α : Type} {simDim : Nat} (past : PastEnd)
    (st : State α simDim) (domInfo : DomainInformation simDim) (nComponents : Nat)
    (ptr : Nat → α) :
    ((writeField past st domInfo nComponents ptr).error =
        some "Cannot write field (var id list is empty)" ↔
      st.params.adiosFieldVarIds.length < nComponents) ∧
    ((writeField past st domInfo nComponents ptr).error = none ↔
      nComponents ≤ st.params.adiosFieldVarIds.length) ∧
    ∃ W : List (AdiosCall α),
      (writeField past st domInfo nComponents ptr).state.calls = st.calls ++ W ∧
      W.map AdiosCall.written =
        (st.params.adiosFieldVarIds.take nComponents).map (fun id => some (Sum.inr id)) ∧
      W.length = min nComponents st.params.adiosFieldVarIds.length ∧
      (st.params.adiosFieldVarIds.length < nComponents →
        W.length = st.params.adiosFieldVarIds.length) := by
  obtain ⟨bfr, h1, h2⟩ := writeField_spec past st domInfo nComponents ptr
  refine ⟨?_, ?_, ?_⟩
  · rw [h2]
    by_cases h : st.params.adiosFieldVarIds.length < nComponents <;> simp [h]
  · rw [h2]
    by_cases h : st.params.adiosFieldVarIds.length < nComponents
    · simp [h]
    · simp [h]; omega
  · refine ⟨_, by rw [h1], ?_, ?_, ?_⟩
    · have := stagedWrites_written st.params.gridLayout.dataSpace domInfo.domainSize
        (st.params.gridLayout.guard + domInfo.localDomainOffset) past nComponents ptr
        st.params.adiosFileHandle (List.range nComponents) st.params.adiosFieldVarIds
        st.params.fieldBfr
      simpa using this
    · rw [stagedWrites_length]; simp
    · intro h
      rw [stagedWrites_length]; simp; omega

/-- C10: when at least `nComponents` handles are queued, `writeField` does not throw,
removes exactly the first `nComponents` handles from the queue and issues exactly
`nComponents` calls, all of them writes by id through these handles in queue order;
the sequence of written handles is the same for every geometry. When the local size is
not positive in some dimension the copy loops make no assignment: the staging buffer
is unchanged and every write hands over the unchanged buffer. -/
theorem writeField_writes_for_every_geometry {α : Type} {simDim : Nat} (past : PastEnd)
    (st : State α simDim) (domInfo : DomainInformation simDim) (nComponents : Nat)
    (ptr : Nat → α) (hq : nComponents ≤ st.params.adiosFieldVarIds.length) :
    (writeField past st domInfo nComponents ptr).error = none ∧
    (writeField past st domInfo nComponents ptr).state.params.adiosFieldVarIds =
      st.params.adiosFieldVarIds.drop nComponents ∧
    (∃ W : List (AdiosCall α),
      (writeField past st domInfo nComponents ptr).state.calls = st.calls ++ W ∧
      W.length = nComponents ∧
      W.map AdiosCall.written =
        (st.params.adiosFieldVarIds.take nComponents).map (fun id => some (Sum.inr id)) ∧
      ((∃ i : Fin simDim, i.val < 3 ∧ domInfo.domainSize i ≤ 0) →
        ∀ c ∈ W, c.staged = some st.params.fieldBfr)) ∧
    (∀ domInfo2 : DomainInformation simDim,
      (writeField past st domInfo2 nComponents ptr).state.calls.map AdiosCall.written =
        (writeField past st domInfo nComponents ptr).state.calls.map AdiosCall.written) ∧
    ((∃ i : Fin simDim, i.val < 3 ∧ domInfo.domainSize i ≤ 0) →
      (∀ d, copyIndices st.params.gridLayout.dataSpace domInfo.domainSize
        (st.params.gridLayout.guard + domInfo.localDomainOffset) past nComponents d = []) ∧
      (writeField past st domInfo nComponents ptr).state.params.fieldBfr =
        st.params.fieldBfr) := by
  obtain ⟨bfr, h1, h2⟩ := writeField_spec past st domInfo nComponents ptr
  have hnil : (∃ i : Fin simDim, i.val < 3 ∧ domInfo.domainSize i ≤ 0) →
      ∀ d, copyIndices st.params.gridLayout.dataSpace domInfo.domainSize
        (st.params.gridLayout.guard + domInfo.localDomainOffset) past nComponents d = [] := by
    rintro ⟨i, hi, h0⟩ d
    exact copyIndices_eq_nil _ _ _ past nComponents d i hi h0
  have hw : ∀ dI : DomainInformation simDim,
      (writeField past st dI nComponents ptr).state.calls.map AdiosCall.written =
        st.calls.map AdiosCall.written ++
          (st.params.adiosFieldVarIds.take nComponents).map (fun id => some (Sum.inr id)) := by
    intro dI
    obtain ⟨b, e1, -⟩ := writeField_spec past st dI nComponents ptr
    rw [e1]
    simp only [List.map_append]
    rw [stagedWrites_written]
    simp
  refine ⟨?_, ?_, ?_, ?_, ?_⟩
  · rw [h2]; simp; omega
  · rw [h1]
  · refine ⟨_, by rw [h1], ?_, ?_, ?_⟩
    · rw [stagedWrites_length]; simp; omega
    · rw [stagedWrites_written]; simp
    · intro he
      exact stagedWrites_staged_of_nil _ _ _ past nComponents ptr _ (hnil he) _ _ _
  · intro domInfo2
    rw [hw domInfo2, hw domInfo]
  · intro he
    refine ⟨hnil he, ?_⟩
    unfold writeField
    exact writeFieldLoop_fieldBfr_of_nil _ _ _ past nComponents ptr (hnil he) _ st

/-- Witness for `writeField_writes_for_every_geometry`: a field with three components,
three queued handles and a local size of 3 x 0 x 2 cells. -/
theorem writeField_writes_for_every_geometry_witness :
    (3 ≤ (stateOf smallLayout ![3, 0, 2] [11, 12, 13]).params.adiosFieldVarIds.length) ∧
    (∃ i : Fin 3, i.val < 3 ∧
      (primaryDomainInfo (windowOfSize ![3, 0, 2]) (fun _ => 0)).domainSize i ≤ 0) ∧
    (writeField noPast (stateOf smallLayout ![3, 0, 2] [11, 12, 13])
      (primaryDomainInfo (windowOfSize ![3, 0, 2]) (fun _ => 0)) 3 indexSource).error =
        none :=
  ⟨by decide, ⟨1, by decide, by decide⟩,
    (writeField_writes_for_every_geometry noPast (stateOf smallLayout ![3, 0, 2] [11, 12, 13])
      (primaryDomainInfo (windowOfSize ![3, 0, 2]) (fun _ => 0)) 3 indexSource
      (by decide)).1⟩

/-! ## Declaration of variables -/

theorem defineFieldVar_fold {α : Type} {simDim : Nat} (defs : Defs) (lib : AdiosLib)
    (strs : String × String × String) (C : Nat) (type : ADIOS_DATATYPES) (name : String)
    (st : State α simDim) :
    ∀ k : Nat,
      (List.range k).foldl (defineFieldVarStep defs lib strs C type name) st =
        { st with
          params := { st.params with
            adiosFieldVarIds := st.params.adiosFieldVarIds ++ idsFrom lib st.definedVars k }
          calls := st.calls ++ (List.range k).map fun c =>
            AdiosCall.adios_define_var (datasetName defs name C c) type
              (some strs.1) (some strs.2.1) (some strs.2.2)
              (lib.define_var_id (st.definedVars + c))
          definedVars := st.definedVars + k } := by
  intro k
  induction k with
  | zero => simp [idsFrom]
  | succ k ih =>
    rw [List.range_succ, List.foldl_append, ih]
    simp [defineFieldVarStep, adios_define_var, idsFrom, List.range_succ, Nat.add_assoc]

theorem defineFieldVar_spec {α : Type} {simDim : Nat} (defs : Defs) (lib : AdiosLib)
    (st : State α simDim) (C : Nat) (type : ADIOS_DATATYPES) (name : String) :
    defineFieldVar defs lib st C type name =
      { st with
        params := { st.params with
          adiosFieldVarIds := st.params.adiosFieldVarIds ++ idsFrom lib st.definedVars C }
        calls := st.calls ++ fieldVarCalls defs lib simDim C type name st.definedVars
        definedVars := st.definedVars + C } := by
  unfold defineFieldVar fieldVarCalls
  rw [defineFieldVar_fold]

theorem idsFrom_add (lib : AdiosLib) (n a b : Nat) :
    idsFrom lib n (a + b) = idsFrom lib n a ++ idsFrom lib (n + a) b := by
  simp [idsFrom, List.range_add, Nat.add_assoc]

theorem idsFrom_length (lib : AdiosLib) (n k : Nat) : (idsFrom lib n k).length = k := by
  simp [idsFrom]

/-- The state after `CollectFieldsSizes` has been applied to every field in order. -/
theorem forEachCollectFieldsSizes_spec {α : Type} {simDim : Nat} (defs : Defs)
    (lib : AdiosLib) (domInfo : DomainInformation simDim) :
    ∀ (fields : List (FileOutputField α simDim)) (st : State α simDim),
      fields.foldl (fun st f => CollectFieldsSizes defs lib st domInfo f) st =
        { st with
          params := { st.params with
            adiosGroupSize :=
              fields.foldl (fun g f => addSizeT g (localGroupSize f domInfo))
                st.params.adiosGroupSize
            adiosFieldVarIds := st.params.adiosFieldVarIds ++
              idsFrom lib st.definedVars (totalComponents fields) }
          calls := st.calls ++ fieldsVarCalls defs lib fields st.definedVars
          definedVars := st.definedVars + totalComponents fields } := by
  intro fields
  induction fields with
  | nil => intro st; simp [totalComponents, idsFrom, fieldsVarCalls]
  | cons f fs ih =>
    intro st
    rw [List.foldl_cons, ih]
    have ht : totalComponents (f :: fs) = f.numComponents + totalComponents fs := by
      simp [totalComponents]
    rw [ht, idsFrom_add]
    simp [CollectFieldsSizes, defineFieldVar_spec, fieldsVarCalls, Nat.add_assoc]

/-- The state after the loop of `defineAdiosFieldVars` has run over the dimensions
`L` (without repetition): the three declarations of every dimension are appended to
the trace, with the ids that are stored in the id arrays afterwards. -/
theorem defineAdiosFieldVars_fold {α : Type} {simDim : Nat} (defs : Defs) (lib : AdiosLib) :
    ∀ (L : List (Fin simDim)) (st : State α simDim), L.Nodup →
      (L.foldl (defineAdiosFieldVarsStep defs lib) st).calls =
        st.calls ++
          L.flatMap (axisVarCalls defs
            (L.foldl (defineAdiosFieldVarsStep defs lib) st).params.adiosSizeVarIds
            (L.foldl (defineAdiosFieldVarsStep defs lib) st).params.adiosTotalSizeVarIds
            (L.foldl (defineAdiosFieldVarsStep defs lib) st).params.adiosOffsetVarIds) ∧
      (L.foldl (defineAdiosFieldVarsStep defs lib) st).definedVars =
        st.definedVars + 3 * L.length ∧
      (∀ d, d ∉ L →
        (L.foldl (defineAdiosFieldVarsStep defs lib) st).params.adiosSizeVarIds d =
          st.params.adiosSizeVarIds d ∧
        (L.foldl (defineAdiosFieldVarsStep defs lib) st).params.adiosTotalSizeVarIds d =
          st.params.adiosTotalSizeVarIds d ∧
        (L.foldl (defineAdiosFieldVarsStep defs lib) st).params.adiosOffsetVarIds d =
          st.params.adiosOffsetVarIds d) ∧
      (L.foldl (defineAdiosFieldVarsStep defs lib) st).params =
        { st.params with
          adiosSizeVarIds :=
            (L.foldl (defineAdiosFieldVarsStep defs lib) st).params.adiosSizeVarIds
          adiosTotalSizeVarIds :=
            (L.foldl (defineAdiosFieldVarsStep defs lib) st).params.adiosTotalSizeVarIds
          adiosOffsetVarIds :=
            (L.foldl (defineAdiosFieldVarsStep defs lib) st).params.adiosOffsetVarIds
          adiosGroupSize :=
            L.foldl (fun g _ => addSizeT g (sizeof_int * 3)) st.params.adiosGroupSize } ∧
      (∀ d, d ∈ L →
        (L.foldl (defineAdiosFieldVarsStep defs lib) st).params.adiosSizeVarIds d =
          lib.define_var_id (st.definedVars + 3 * L.indexOf d) ∧
        (L.foldl (defineAdiosFieldVarsStep defs lib) st).params.adiosTotalSizeVarIds d =
          lib.define_var_id (st.definedVars + 3 * L.indexOf d + 1) ∧
        (L.foldl (defineAdiosFieldVarsStep defs lib) st).params.adiosOffsetVarIds d =
          lib.define_var_id (st.definedVars + 3 * L.indexOf d + 2)) := by
  intro L
  induction L with
  | nil => intro st _; simp
  | cons a L ih =>
    intro st hnd
    have hna : a ∉ L := (List.nodup_cons.mp hnd).1
    obtain ⟨h1, h2, h3, h4, h5⟩ := ih (defineAdiosFieldVarsStep defs lib st a)
      (List.nodup_cons.mp hnd).2
    obtain ⟨ha1, ha2, ha3⟩ := h3 a hna
    rw [List.foldl_cons]
    refine ⟨?_, ?_, ?_, ?_, ?_⟩
    · rw [h1, List.flatMap_cons]
      simp only [axisVarCalls, ha1, ha2, ha3]
      simp [defineAdiosFieldVarsStep, adios_define_var]
    · rw [h2]
      simp [defineAdiosFieldVarsStep, adios_define_var]
      omega
    · intro d hd
      have hda : d ≠ a := fun e => hd (e ▸ List.mem_cons_self _ _)
      have hdL : d ∉ L := fun e => hd (List.mem_cons_of_mem _ e)
      obtain ⟨g1, g2, g3⟩ := h3 d hdL
      rw [g1, g2, g3]
      simp [defineAdiosFieldVarsStep, adios_define_var, Function.update_noteq hda]
    · rw [h4]
      simp [defineAdiosFieldVarsStep, adios_define_var]
    · intro d hd
      by_cases hda : d = a
      · subst hda
        rw [ha1, ha2, ha3, List.indexOf_cons_self]
        simp [defineAdiosFieldVarsStep, adios_define_var]
      · have hdL : d ∈ L := (List.mem_cons.mp hd).resolve_left hda
        obtain ⟨g1, g2, g3⟩ := h5 d hdL
        have hi : (a :: L).indexOf d = L.indexOf d + 1 :=
          List.indexOf_cons_ne _ (fun e => hda e.symm)
        rw [g1, g2, g3, hi]
        have hn : (defineAdiosFieldVarsStep defs lib st a).definedVars = st.definedVars + 3 := by
          simp [defineAdiosFieldVarsStep, adios_define_var]
        rw [hn]
        refine ⟨?_, ?_, ?_⟩ <;> congr 1 <;> omega

theorem defineAdiosFieldVars_spec {α : Type} {simDim : Nat} (defs : Defs) (lib : AdiosLib)
    (st : State α simDim) :
    defineAdiosFieldVars defs lib st =
      { params := { st.params with
          adiosSizeVarIds := axisId lib st.definedVars 0
          adiosTotalSizeVarIds := axisId lib st.definedVars 1
          adiosOffsetVarIds := axisId lib st.definedVars 2
          adiosGroupSize :=
            (List.finRange simDim).foldl (fun g _ => addSizeT g (sizeof_int * 3))
              st.params.adiosGroupSize }
        calls := st.calls ++
          (List.finRange simDim).flatMap
            (axisVarCalls defs (axisId lib st.definedVars 0) (axisId lib st.definedVars 1)
              (axisId lib st.definedVars 2))
        definedVars := st.definedVars + 3 * simDim } := by
  obtain ⟨h1, h2, -, h4, h5⟩ := defineAdiosFieldVars_fold defs lib (List.finRange simDim) st
    (List.nodup_finRange simDim)
  have e1 : (List.foldl (defineAdiosFieldVarsStep defs lib) st
      (List.finRange simDim)).params.adiosSizeVarIds = axisId lib st.definedVars 0 := by
    funext d
    rw [(h5 d (List.mem_finRange d)).1, List.indexOf_finRange]
    rfl
  have e2 : (List.foldl (defineAdiosFieldVarsStep defs lib) st
      (List.finRange simDim)).params.adiosTotalSizeVarIds = axisId lib st.definedVars 1 := by
    funext d
    rw [(h5 d (List.mem_finRange d)).2.1, List.indexOf_finRange]
    rfl
  have e3 : (List.foldl (defineAdiosFieldVarsStep defs lib) st
      (List.finRange simDim)).params.adiosOffsetVarIds = axisId lib st.definedVars 2 := by
    funext d
    rw [(h5 d (List.mem_finRange d)).2.2, List.indexOf_finRange]
    rfl
  rw [e1, e2, e3] at h1 h4
  rw [List.length_finRange] at h2
  have e : defineAdiosFieldVars defs lib st =
      { params := (defineAdiosFieldVars defs lib st).params
        calls := (defineAdiosFieldVars defs lib st).calls
        definedVars := (defineAdiosFieldVars defs lib st).definedVars } := rfl
  rw [e]
  unfold defineAdiosFieldVars
  rw [h2, h1, h4]

theorem writeAxisVars_fold {α : Type} {simDim : Nat} (domInfo : DomainInformation simDim) :
    ∀ (L : List (Fin simDim)) (st : State α simDim),
      L.foldl (fun st d => { st with calls := st.calls ++ axisWrites st.params domInfo d }) st =
        { st with calls := st.calls ++ L.flatMap (axisWrites st.params domInfo) } := by
  intro L
  induction L with
  | nil => intro st; simp
  | cons a L ih =>
    intro st
    rw [List.foldl_cons, ih]
    simp

theorem writeAxisVars_spec {α : Type} {simDim : Nat} (st : State α simDim)
    (domInfo : DomainInformation simDim) :
    writeAxisVars st domInfo =
      { st with
        calls := st.calls ++ (List.finRange simDim).flatMap (axisWrites st.params domInfo) } :=
  writeAxisVars_fold domInfo _ st

/-- The state after `GetFields` has been applied to every field in order, when enough
handles are queued: no throw, the handles are consumed from the front of the queue
and every call issued is the write of a staged buffer through the next handle. -/
theorem forEachGetFields_spec {α : Type} {simDim : Nat} (past : PastEnd)
    (domInfo : DomainInformation simDim) :
    ∀ (fields : List (FileOutputField α simDim)) (st : State α simDim),
      totalComponents fields ≤ st.params.adiosFieldVarIds.length →
      (forEachGetFields past domInfo fields st).error = none ∧
      ∃ W : List (AdiosCall α),
        (forEachGetFields past domInfo fields st).state.calls = st.calls ++ W ∧
        W.map AdiosCall.fieldWriteId =
          (st.params.adiosFieldVarIds.take (totalComponents fields)).map some ∧
        (forEachGetFields past domInfo fields st).state.definedVars = st.definedVars ∧
        (forEachGetFields past domInfo fields st).state.params =
          { st.params with
            fieldBfr := (forEachGetFields past domInfo fields st).state.params.fieldBfr
            gridLayout := (forEachGetFields past domInfo fields st).state.params.gridLayout
            adiosFieldVarIds :=
              st.params.adiosFieldVarIds.drop (totalComponents fields) } := by
  intro fields
  induction fields with
  | nil =>
    intro st _
    refine ⟨rfl, [], ?_, ?_, rfl, ?_⟩ <;> simp [forEachGetFields, totalComponents]
  | cons f fs ih =>
    intro st hq
    have ht : totalComponents (f :: fs) = f.numComponents + totalComponents fs := by
      simp [totalComponents]
    rw [ht] at hq ⊢
    obtain ⟨bfr, h1, h2⟩ := writeField_spec past
      { st with params := { st.params with gridLayout := f.gridLayout } } domInfo
      f.numComponents f.hostData
    have hnone : (writeField past
        { st with params := { st.params with gridLayout := f.gridLayout } } domInfo
        f.numComponents f.hostData).error = none := by
      rw [h2]
      have : ¬ st.params.adiosFieldVarIds.length < f.numComponents := by omega
      simp [this]
    have hstep : forEachGetFields past domInfo (f :: fs) st =
        forEachGetFields past domInfo fs (writeField past
          { st with params := { st.params with gridLayout := f.gridLayout } } domInfo
          f.numComponents f.hostData).state := by
      simp only [forEachGetFields, hnone]
    rw [hstep]
    have hlen : totalComponents fs ≤ (writeField past
        { st with params := { st.params with gridLayout := f.gridLayout } } domInfo
        f.numComponents f.hostData).state.params.adiosFieldVarIds.length := by
      rw [h1]; simp; omega
    obtain ⟨e0, W, e1, e2, e3, e4⟩ := ih _ hlen
    refine ⟨e0, stagedWrites f.gridLayout.dataSpace domInfo.domainSize
      (f.gridLayout.guard + domInfo.localDomainOffset) past f.numComponents f.hostData
      st.params.adiosFileHandle (List.range f.numComponents) st.params.adiosFieldVarIds
      st.params.fieldBfr ++ W, ?_, ?_, ?_, ?_⟩
    · rw [e1, h1, List.append_assoc]
    · rw [List.map_append, e2, stagedWrites_fieldWriteId, h1]
      simp only [List.length_range, List.take_add, List.map_append]
    · rw [e3, h1]
    · rw [e4, h1]
      simp [Nat.add_comm]

/-- The state after the declaring part of `writeAdios`. -/
theorem defineAdiosVars_spec {α : Type} {simDim : Nat} (defs : Defs) (lib : AdiosLib)
    (fields : List (FileOutputField α simDim)) (domInfo : DomainInformation simDim)
    (st0 : State α simDim) :
    defineAdiosVars defs lib fields domInfo st0 =
      { params := { st0.params with
          adiosGroupSize :=
            fields.foldl (fun g f => addSizeT g (localGroupSize f domInfo))
              ((List.finRange simDim).foldl (fun g _ => addSizeT g (sizeof_int * 3))
                (2 * sizeof_int))
          adiosFieldVarIds :=
            idsFrom lib (st0.definedVars + 2 + 3 * simDim) (totalComponents fields)
          adiosSizeVarIds := axisId lib (st0.definedVars + 2) 0
          adiosTotalSizeVarIds := axisId lib (st0.definedVars + 2) 1
          adiosOffsetVarIds := axisId lib (st0.definedVars + 2) 2 }
        calls := st0.calls ++
          ([AdiosCall.adios_declare_group defs.ADIOS_FIELDS_NAME "iteration",
            AdiosCall.adios_select_method "MPI",
            AdiosCall.adios_define_var "iteration" ADIOS_DATATYPES.adios_unsigned_integer
              none none none (lib.define_var_id st0.definedVars),
            AdiosCall.adios_define_var "sim_slides" ADIOS_DATATYPES.adios_unsigned_integer
              none none none (lib.define_var_id (st0.definedVars + 1))] ++
           (List.finRange simDim).flatMap
             (axisVarCalls defs (axisId lib (st0.definedVars + 2) 0)
               (axisId lib (st0.definedVars + 2) 1) (axisId lib (st0.definedVars + 2) 2)) ++
           fieldsVarCalls defs lib fields (st0.definedVars + 2 + 3 * simDim))
        definedVars := st0.definedVars + 2 + 3 * simDim + totalComponents fields } := by
  unfold defineAdiosVars
  simp only [State.call, adios_define_var, defineAdiosFieldVars_spec,
    forEachCollectFieldsSizes_spec, List.nil_append, List.append_assoc, List.cons_append,
    Nat.add_assoc, Nat.reduceAdd]

/-- The outcome of the writing part of `writeAdios` when enough handles are queued. -/
theorem writeAdiosVars_spec {α : Type} {simDim : Nat} (past : PastEnd)
    (fields : List (FileOutputField α simDim)) (domInfo : DomainInformation simDim)
    (slides : Nat) (st : State α simDim)
    (hq : totalComponents fields ≤ st.params.adiosFieldVarIds.length) :
    (writeAdiosVars past fields domInfo slides st).error = none ∧
    ∃ W : List (AdiosCall α),
      W.map AdiosCall.fieldWriteId =
        (st.params.adiosFieldVarIds.take (totalComponents fields)).map some ∧
      (writeAdiosVars past fields domInfo slides st).state.calls =
        st.calls ++
          ([AdiosCall.adios_group_size st.params.adiosFileHandle st.params.adiosGroupSize,
            AdiosCall.adios_write st.params.adiosFileHandle "iteration" st.params.currentStep,
            AdiosCall.adios_write st.params.adiosFileHandle "sim_slides" slides] ++
           (List.finRange simDim).flatMap (axisWrites st.params domInfo) ++
           W ++
           [AdiosCall.adios_close st.params.adiosFileHandle, AdiosCall.MPI_Barrier]) ∧
      (writeAdiosVars past fields domInfo slides st).state.definedVars = st.definedVars ∧
      (writeAdiosVars past fields domInfo slides st).state.params =
        { st.params with
          fieldBfr := (writeAdiosVars past fields domInfo slides st).state.params.fieldBfr
          gridLayout := (writeAdiosVars past fields domInfo slides st).state.params.gridLayout
          adiosFieldVarIds := st.params.adiosFieldVarIds.drop (totalComponents fields) } := by
  have hXp : (writeAxisVars
      (((st.call
        (AdiosCall.adios_group_size st.params.adiosFileHandle st.params.adiosGroupSize)).call
        (AdiosCall.adios_write st.params.adiosFileHandle "iteration"
          st.params.currentStep)).call
        (AdiosCall.adios_write st.params.adiosFileHandle "sim_slides" slides))
      domInfo).params = st.params := by
    simp [writeAxisVars_spec, State.call]
  have hXc : (writeAxisVars
      (((st.call
        (AdiosCall.adios_group_size st.params.adiosFileHandle st.params.adiosGroupSize)).call
        (AdiosCall.adios_write st.params.adiosFileHandle "iteration"
          st.params.currentStep)).call
        (AdiosCall.adios_write st.params.adiosFileHandle "sim_slides" slides))
      domInfo).calls =
      st.calls ++
        ([AdiosCall.adios_group_size st.params.adiosFileHandle st.params.adiosGroupSize,
          AdiosCall.adios_write st.params.adiosFileHandle "iteration" st.params.currentStep,
          AdiosCall.adios_write st.params.adiosFileHandle "sim_slides" slides] ++
         (List.finRange simDim).flatMap (axisWrites st.params domInfo)) := by
    simp [writeAxisVars_spec, State.call]
  have hXd : (writeAxisVars
      (((st.call
        (AdiosCall.adios_group_size st.params.adiosFileHandle st.params.adiosGroupSize)).call
        (AdiosCall.adios_write st.params.adiosFileHandle "iteration"
          st.params.currentStep)).call
        (AdiosCall.adios_write st.params.adiosFileHandle "sim_slides" slides))
      domInfo).definedVars = st.definedVars := by
    simp [writeAxisVars_spec, State.call]
  have hw : writeAdiosVars past fields domInfo slides st =
      match (forEachGetFields past domInfo fields (writeAxisVars
        (((st.call
          (AdiosCall.adios_group_size st.params.adiosFileHandle st.params.adiosGroupSize)).call
          (AdiosCall.adios_write st.params.adiosFileHandle "iteration"
            st.params.currentStep)).call
          (AdiosCall.adios_write st.params.adiosFileHandle "sim_slides" slides))
        domInfo)).error with
      | some e => ⟨(forEachGetFields past domInfo fields (writeAxisVars
        (((st.call
          (AdiosCall.adios_group_size st.params.adiosFileHandle st.params.adiosGroupSize)).call
          (AdiosCall.adios_write st.params.adiosFileHandle "iteration"
            st.params.currentStep)).call
          (AdiosCall.adios_write st.params.adiosFileHandle "sim_slides" slides))
        domInfo)).state, some e⟩
      | none => ⟨((forEachGetFields past domInfo fields (writeAxisVars
        (((st.call
          (AdiosCall.adios_group_size st.params.adiosFileHandle st.params.adiosGroupSize)).call
          (AdiosCall.adios_write st.params.adiosFileHandle "iteration"
            st.params.currentStep)).call
          (AdiosCall.adios_write st.params.adiosFileHandle "sim_slides" slides))
        domInfo)).state.call (AdiosCall.adios_close (forEachGetFields past domInfo fields
          (writeAxisVars
        (((st.call
          (AdiosCall.adios_group_size st.params.adiosFileHandle st.params.adiosGroupSize)).call
          (AdiosCall.adios_write st.params.adiosFileHandle "iteration"
            st.params.currentStep)).call
          (AdiosCall.adios_write st.params.adiosFileHandle "sim_slides" slides))
        domInfo)).state.params.adiosFileHandle)).call AdiosCall.MPI_Barrier, none⟩ := rfl
  generalize writeAxisVars
      (((st.call
        (AdiosCall.adios_group_size st.params.adiosFileHandle st.params.adiosGroupSize)).call
        (AdiosCall.adios_write st.params.adiosFileHandle "iteration"
          st.params.currentStep)).call
        (AdiosCall.adios_write st.params.adiosFileHandle "sim_slides" slides))
      domInfo = X at hXp hXc hXd hw
  obtain ⟨e0, W, e1, e2, e3, e4⟩ := forEachGetFields_spec past domInfo fields X
    (by rw [hXp]; exact hq)
  have hfh : (forEachGetFields past domInfo fields X).state.params.adiosFileHandle =
      st.params.adiosFileHandle := by rw [e4, hXp]
  rw [hw]
  simp only [e0]
  refine ⟨trivial, W, ?_, ?_, ?_, ?_⟩
  · rw [e2, hXp]
  · simp only [State.call]
    rw [e1, hXc, hfh]
    simp only [List.append_assoc]
    rfl
  · simp only [State.call, e3, hXd]
  · simp only [State.call]
    rw [e4, hXp]

/-- The outcome of `writeAdios` when `adios_open` yields a valid handle: the function
returns normally, and the calls it issues are, in this order, the group set-up, the
declarations of the two scalars, of the three variables per dimension and of every
field component, the open call, the reservation, the writes of the two scalars, the
three writes per dimension, one staged write per field component through the handles
of the field declarations in order, the close call and the barrier. -/
theorem writeAdios_spec {α : Type} {simDim : Nat} (defs : Defs) (lib : AdiosLib)
    (past : PastEnd) (fields : List (FileOutputField α simDim)) (st0 : State α simDim)
    (hopen : lib.open_fd st0.params.fullFilename ≠ defs.ADIOS_INVALID_HANDLE) :
    (writeAdios defs lib past fields st0).error = none ∧
    ∃ W : List (AdiosCall α),
      W.map AdiosCall.fieldWriteId =
        (idsFrom lib (st0.definedVars + 2 + 3 * simDim) (totalComponents fields)).map some ∧
      (writeAdios defs lib past fields st0).state.params.adiosFieldVarIds = [] ∧
      (writeAdios defs lib past fields st0).state.calls =
        st0.calls ++
          ([AdiosCall.adios_declare_group defs.ADIOS_FIELDS_NAME "iteration",
            AdiosCall.adios_select_method "MPI",
            AdiosCall.adios_define_var "iteration" ADIOS_DATATYPES.adios_unsigned_integer
              none none none (lib.define_var_id st0.definedVars),
            AdiosCall.adios_define_var "sim_slides" ADIOS_DATATYPES.adios_unsigned_integer
              none none none (lib.define_var_id (st0.definedVars + 1))] ++
           (List.finRange simDim).flatMap
             (axisVarCalls defs (axisId lib (st0.definedVars + 2) 0)
               (axisId lib (st0.definedVars + 2) 1) (axisId lib (st0.definedVars + 2) 2)) ++
           fieldsVarCalls defs lib fields (st0.definedVars + 2 + 3 * simDim) ++
           [AdiosCall.adios_open defs.ADIOS_FIELDS_NAME st0.params.fullFilename "w"
              (lib.open_fd st0.params.fullFilename),
            AdiosCall.adios_group_size (lib.open_fd st0.params.fullFilename)
              (fields.foldl
                (fun g f => addSizeT g (localGroupSize f
                  (primaryDomainInfo st0.params.window st0.params.gridPosition)))
                ((List.finRange simDim).foldl (fun g _ => addSizeT g (sizeof_int * 3))
                  (2 * sizeof_int))),
            AdiosCall.adios_write (lib.open_fd st0.params.fullFilename) "iteration"
              st0.params.currentStep,
            AdiosCall.adios_write (lib.open_fd st0.params.fullFilename) "sim_slides"
              st0.params.window.slides] ++
           (List.finRange simDim).flatMap
             (fun d =>
               [AdiosCall.adios_write_byid (lib.open_fd st0.params.fullFilename)
                  (axisId lib (st0.definedVars + 2) 0 d)
                  (Payload.scalar (st0.params.window.localSize d)),
                AdiosCall.adios_write_byid (lib.open_fd st0.params.fullFilename)
                  (axisId lib (st0.definedVars + 2) 1 d)
                  (Payload.scalar (st0.params.window.globalWindowSize d)),
                AdiosCall.adios_write_byid (lib.open_fd st0.params.fullFilename)
                  (axisId lib (st0.definedVars + 2) 2 d)
                  (Payload.scalar
                    (writtenOffset
                      (primaryDomainInfo st0.params.window st0.params.gridPosition) d))]) ++
           W ++
           [AdiosCall.adios_close (lib.open_fd st0.params.fullFilename),
            AdiosCall.MPI_Barrier]) := by
  have hd := defineAdiosVars_spec defs lib fields
    (primaryDomainInfo st0.params.window st0.params.gridPosition) st0
  have hfn : (defineAdiosVars defs lib fields
      (primaryDomainInfo st0.params.window st0.params.gridPosition) st0).params.fullFilename =
      st0.params.fullFilename := by rw [hd]
  obtain ⟨e0, W, e1, e2, e3, e4⟩ := writeAdiosVars_spec past fields
    (primaryDomainInfo st0.params.window st0.params.gridPosition) st0.params.window.slides
    { defineAdiosVars defs lib fields
        (primaryDomainInfo st0.params.window st0.params.gridPosition) st0 with
      params := { (defineAdiosVars defs lib fields
          (primaryDomainInfo st0.params.window st0.params.gridPosition) st0).params with
        adiosFileHandle := lib.open_fd st0.params.fullFilename }
      calls := (defineAdiosVars defs lib fields
          (primaryDomainInfo st0.params.window st0.params.gridPosition) st0).calls ++
        [AdiosCall.adios_open defs.ADIOS_FIELDS_NAME st0.params.fullFilename "w"
          (lib.open_fd st0.params.fullFilename)] }
    (by rw [hd]; simp [idsFrom_length])
  have hout : writeAdios defs lib past fields st0 =
      writeAdiosVars past fields
        (primaryDomainInfo st0.params.window st0.params.gridPosition)
        st0.params.window.slides
        { defineAdiosVars defs lib fields
            (primaryDomainInfo st0.params.window st0.params.gridPosition) st0 with
          params := { (defineAdiosVars defs lib fields
              (primaryDomainInfo st0.params.window st0.params.gridPosition) st0).params with
            adiosFileHandle := lib.open_fd st0.params.fullFilename }
          calls := (defineAdiosVars defs lib fields
              (primaryDomainInfo st0.params.window st0.params.gridPosition) st0).calls ++
            [AdiosCall.adios_open defs.ADIOS_FIELDS_NAME st0.params.fullFilename "w"
              (lib.open_fd st0.params.fullFilename)] } := by
    unfold writeAdios
    simp only [hfn, hopen, if_false]
  rw [hout]
  refine ⟨e0, W, ?_, ?_, ?_⟩
  · rw [e1, hd]
    simp [idsFrom_length]
  · rw [e4, hd]
    simp [idsFrom_length]
  · rw [e2, hd]
    have ha : ∀ (p : ThreadParams α simDim) (dI : DomainInformation simDim),
        axisWrites p dI = fun d =>
          [AdiosCall.adios_write_byid p.adiosFileHandle (p.adiosSizeVarIds d)
             (Payload.scalar (dI.domainSize d)),
           AdiosCall.adios_write_byid p.adiosFileHandle (p.adiosTotalSizeVarIds d)
             (Payload.scalar (dI.globalDomainSize d)),
           AdiosCall.adios_write_byid p.adiosFileHandle (p.adiosOffsetVarIds d)
             (Payload.scalar (writtenOffset dI d))] := fun p dI => rfl
    simp only [ha, List.append_assoc]
    rfl

/-! ## Observations on the trace of a write cycle -/

theorem declared_isSome_elim {α : Type} (c : AdiosCall α) (h : (c.declared).isSome) :
    c.written = none ∧ c.scalarWrite = none ∧ c.fieldWriteId = none := by
  cases c with
  | adios_define_var name type dims gdims offs id =>
    simp [AdiosCall.written, AdiosCall.scalarWrite, AdiosCall.fieldWriteId]
  | _ => simp [AdiosCall.declared] at h

theorem fieldWriteId_some_elim {α : Type} (c : AdiosCall α) (id : Int)
    (h : c.fieldWriteId = some id) :
    c.written = some (Sum.inr id) ∧ c.scalarWrite = none ∧ c.declared = none := by
  cases c with
  | adios_write_byid fd i data =>
    cases data with
    | scalar v => simp [AdiosCall.fieldWriteId] at h
    | buffer m =>
      simp [AdiosCall.fieldWriteId] at h
      subst h
      simp [AdiosCall.written, AdiosCall.scalarWrite, AdiosCall.declared]
  | _ => simp [AdiosCall.fieldWriteId] at h

theorem filterMap_of_fieldWrites {α : Type} :
    ∀ (W : List (AdiosCall α)) (ids : List Int),
      W.map AdiosCall.fieldWriteId = ids.map some →
      W.filterMap AdiosCall.written = ids.map Sum.inr ∧
      W.filterMap AdiosCall.declared = [] ∧
      W.filterMap AdiosCall.scalarWrite = [] ∧
      W.length = ids.length := by
  intro W
  induction W with
  | nil =>
    intro ids h
    cases ids with
    | nil => simp
    | cons i ids => simp at h
  | cons c W ih =>
    intro ids h
    cases ids with
    | nil => simp at h
    | cons i ids =>
      simp only [List.map_cons, List.cons.injEq] at h
      obtain ⟨h1, h2, h3⟩ := fieldWriteId_some_elim c i h.1
      obtain ⟨g1, g2, g3, g4⟩ := ih ids h.2
      refine ⟨?_, ?_, ?_, ?_⟩
      · rw [List.filterMap_cons_some h1, g1]; rfl
      · rw [List.filterMap_cons_none h3, g2]
      · rw [List.filterMap_cons_none h2, g3]
      · simp [g4]

theorem filterMap_of_declarations {α : Type} :
    ∀ (D : List (AdiosCall α)) (ids : List Int),
      D.map (fun c => (c.declared).map Prod.snd) = ids.map some →
      (D.filterMap AdiosCall.declared).map Prod.snd = ids ∧
      D.filterMap AdiosCall.written = [] ∧
      D.filterMap AdiosCall.scalarWrite = [] ∧
      D.filterMap AdiosCall.fieldWriteId = [] ∧
      D.length = ids.length := by
  intro D
  induction D with
  | nil =>
    intro ids h
    cases ids with
    | nil => simp
    | cons i ids => simp at h
  | cons c D ih =>
    intro ids h
    cases ids with
    | nil => simp at h
    | cons i ids =>
      simp only [List.map_cons, List.cons.injEq] at h
      obtain ⟨g1, g2, g3, g4, g5⟩ := ih ids h.2
      rcases hc : c.declared with _ | ⟨name, id⟩
      · rw [hc] at h; simp at h
      · rw [hc] at h
        simp only [Option.map_some', Option.some.injEq] at h
        obtain ⟨h1, h2, h3⟩ := declared_isSome_elim c (by rw [hc]; rfl)
        refine ⟨?_, ?_, ?_, ?_, ?_⟩
        · rw [List.filterMap_cons_some hc, List.map_cons, g1, h.1]
        · rw [List.filterMap_cons_none h1, g2]
        · rw [List.filterMap_cons_none h2, g3]
        · rw [List.filterMap_cons_none h3, g4]
        · simp [g5]

theorem fieldsVarCalls_declared {α : Type} {simDim : Nat} (defs : Defs) (lib : AdiosLib) :
    ∀ (fields : List (FileOutputField α simDim)) (n : Nat),
      (fieldsVarCalls defs lib fields n).map (fun c => (c.declared).map Prod.snd) =
        (idsFrom lib n (totalComponents fields)).map some := by
  intro fields
  induction fields with
  | nil => intro n; simp [fieldsVarCalls, totalComponents, idsFrom]
  | cons f fs ih =>
    intro n
    have ht : totalComponents (f :: fs) = f.numComponents + totalComponents fs := by
      simp [totalComponents]
    rw [ht, idsFrom_add, fieldsVarCalls, List.map_append, List.map_append, ih]
    congr 1
    simp [fieldVarCalls, idsFrom, AdiosCall.declared]

theorem forall₂_flatMap_same {ι β γ : Type} (R : β → γ → Prop) (f : ι → List β)
    (g : ι → List γ) (h : ∀ d, List.Forall₂ R (f d) (g d)) :
    ∀ L : List ι, List.Forall₂ R (L.flatMap f) (L.flatMap g) := by
  intro L
  induction L with
  | nil => simp
  | cons a L ih =>
    rw [List.flatMap_cons, List.flatMap_cons]
    exact List.rel_append (h a) ih

theorem length_flatMap_const {ι β : Type} (f : ι → List β) (k : Nat)
    (h : ∀ d, (f d).length = k) : ∀ L : List ι, (L.flatMap f).length = k * L.length := by
  intro L
  induction L with
  | nil => simp
  | cons a L ih =>
    rw [List.flatMap_cons, List.length_append, ih, h a, List.length_cons]
    ring

theorem forall₂_written_declared :
    ∀ FD : List (String × Int),
      List.Forall₂ (fun (w : String ⊕ Int) (dcl : String × Int) =>
          w = Sum.inl dcl.1 ∨ w = Sum.inr dcl.2)
        ((FD.map Prod.snd).map Sum.inr) FD := by
  intro FD
  induction FD with
  | nil => simp
  | cons a FD ih =>
    simp only [List.map_cons]
    exact List.Forall₂.cons (Or.inr rfl) ih

/-- What the calls of a successful cycle of `writeAdios` declare and write, in
order. -/
theorem writeAdios_observed {α : Type} {simDim : Nat} (defs : Defs) (lib : AdiosLib)
    (past : PastEnd) (fields : List (FileOutputField α simDim)) (st0 : State α simDim)
    (hopen : lib.open_fd st0.params.fullFilename ≠ defs.ADIOS_INVALID_HANDLE) :
    (writeAdios defs lib past fields st0).error = none ∧
    ∃ (T : List (AdiosCall α)) (FD : List (String × Int)),
      (writeAdios defs lib past fields st0).state.calls = st0.calls ++ T ∧
      FD.map Prod.snd =
        idsFrom lib (st0.definedVars + 2 + 3 * simDim) (totalComponents fields) ∧
      T.filterMap AdiosCall.declared =
        [("iteration", lib.define_var_id st0.definedVars),
         ("sim_slides", lib.define_var_id (st0.definedVars + 1))] ++
        (List.finRange simDim).flatMap (fun d =>
          [(defs.ADIOS_SIZE_LOCAL ++ name_lookup d.val, axisId lib (st0.definedVars + 2) 0 d),
           (defs.ADIOS_SIZE_GLOBAL ++ name_lookup d.val, axisId lib (st0.definedVars + 2) 1 d),
           (defs.ADIOS_OFFSET_GLOBAL ++ name_lookup d.val,
             axisId lib (st0.definedVars + 2) 2 d)]) ++
        FD ∧
      T.filterMap AdiosCall.written =
        [Sum.inl "iteration", Sum.inl "sim_slides"] ++
        (List.finRange simDim).flatMap (fun d =>
          [Sum.inr (axisId lib (st0.definedVars + 2) 0 d),
           Sum.inr (axisId lib (st0.definedVars + 2) 1 d),
           Sum.inr (axisId lib (st0.definedVars + 2) 2 d)]) ++
        (idsFrom lib (st0.definedVars + 2 + 3 * simDim) (totalComponents fields)).map
          Sum.inr ∧
      T.filterMap AdiosCall.scalarWrite =
        (List.finRange simDim).flatMap (fun d =>
          [(axisId lib (st0.definedVars + 2) 0 d, st0.params.window.localSize d),
           (axisId lib (st0.definedVars + 2) 1 d, st0.params.window.globalWindowSize d),
           (axisId lib (st0.definedVars + 2) 2 d,
             writtenOffset (primaryDomainInfo st0.params.window st0.params.gridPosition) d)]) := by
  obtain ⟨e0, W, hW, -, hc⟩ := writeAdios_spec defs lib past fields st0 hopen
  obtain ⟨w1, w2, w3, -⟩ := filterMap_of_fieldWrites W _ hW
  obtain ⟨d1, d2, d3, -, -⟩ := filterMap_of_declarations _ _
    (fieldsVarCalls_declared defs lib fields (st0.definedVars + 2 + 3 * simDim))
  have ha : ∀ (a b c : Fin simDim → Int),
      (axisVarCalls defs a b c : Fin simDim → List (AdiosCall α)) = fun d =>
        [AdiosCall.adios_define_var (defs.ADIOS_SIZE_LOCAL ++ name_lookup d.val)
           ADIOS_DATATYPES.adios_integer none none none (a d),
         AdiosCall.adios_define_var (defs.ADIOS_SIZE_GLOBAL ++ name_lookup d.val)
           ADIOS_DATATYPES.adios_integer none none none (b d),
         AdiosCall.adios_define_var (defs.ADIOS_OFFSET_GLOBAL ++ name_lookup d.val)
           ADIOS_DATATYPES.adios_integer none none none (c d)] := fun a b c => rfl
  refine ⟨e0, _, _, hc, d1, ?_, ?_, ?_⟩
  · simp only [List.filterMap_append, List.filterMap_flatMap, w2, d1, ha]
    simp [AdiosCall.declared, List.filterMap_cons]
  · simp only [List.filterMap_append, List.filterMap_flatMap, w1, d2, ha]
    simp [AdiosCall.written, List.filterMap_cons]
  · simp only [List.filterMap_append, List.filterMap_flatMap, w3, d3, ha]
    simp [AdiosCall.scalarWrite, List.filterMap_cons]

/-! ## C3: the size and offset values written per dimension -/

/-- C3: in a cycle of `writeAdios` whose open call yields a valid handle, the `int`
values written by id are, for every dimension `d` in order, the local size
`window.localSize[d]`, the global size `window.globalWindowSize[d]` and the offset,
which is `max(0, domainOffset[1] - globalSimulationOffset[1])` for `d = 1` and
`domainOffset[d]` otherwise, where `domainOffset = gridPosition + window.localOffset`;
they are written through the ids returned by the declarations of the size and offset
variables of that dimension. -/
theorem writeAdios_axis_values {α : Type} {simDim : Nat} (defs : Defs) (lib : AdiosLib)
    (past : PastEnd) (fields : List (FileOutputField α simDim)) (st0 : State α simDim)
    (hopen : lib.open_fd st0.params.fullFilename ≠ defs.ADIOS_INVALID_HANDLE) :
    ∃ T : List (AdiosCall α),
      (writeAdios defs lib past fields st0).state.calls = st0.calls ++ T ∧
      T.filterMap AdiosCall.scalarWrite =
        (List.finRange simDim).flatMap (fun d =>
          [(axisId lib (st0.definedVars + 2) 0 d, st0.params.window.localSize d),
           (axisId lib (st0.definedVars + 2) 1 d, st0.params.window.globalWindowSize d),
           (axisId lib (st0.definedVars + 2) 2 d,
             if d.val = 1 then
               max 0 (st0.params.gridPosition d + st0.params.window.localOffset d -
                 st0.params.window.globalSimulationOffset d)
             else st0.params.gridPosition d + st0.params.window.localOffset d)]) ∧
      ∀ d : Fin simDim,
        (defs.ADIOS_SIZE_LOCAL ++ name_lookup d.val, axisId lib (st0.definedVars + 2) 0 d) ∈
          T.filterMap AdiosCall.declared ∧
        (defs.ADIOS_SIZE_GLOBAL ++ name_lookup d.val, axisId lib (st0.definedVars + 2) 1 d) ∈
          T.filterMap AdiosCall.declared ∧
        (defs.ADIOS_OFFSET_GLOBAL ++ name_lookup d.val, axisId lib (st0.definedVars + 2) 2 d) ∈
          T.filterMap AdiosCall.declared := by
  obtain ⟨-, T, FD, hc, -, hdecl, -, hsw⟩ := writeAdios_observed defs lib past fields st0 hopen
  refine ⟨T, hc, ?_, ?_⟩
  · rw [hsw]
    apply List.flatMap_congr
    intro d _
    have : writtenOffset (primaryDomainInfo st0.params.window st0.params.gridPosition) d =
        if d.val = 1 then
          max 0 (st0.params.gridPosition d + st0.params.window.localOffset d -
            st0.params.window.globalSimulationOffset d)
        else st0.params.gridPosition d + st0.params.window.localOffset d := by
      unfold writtenOffset primaryDomainInfo
      by_cases h : d.val = 1
      · simp [h]
      · have h2 : ¬ (1 = d.val) := fun e => h e.symm
        simp [h, h2]
    rw [this]
  · intro d
    rw [hdecl]
    have hm : ∀ x, x ∈
        [(defs.ADIOS_SIZE_LOCAL ++ name_lookup d.val, axisId lib (st0.definedVars + 2) 0 d),
         (defs.ADIOS_SIZE_GLOBAL ++ name_lookup d.val, axisId lib (st0.definedVars + 2) 1 d),
         (defs.ADIOS_OFFSET_GLOBAL ++ name_lookup d.val,
           axisId lib (st0.definedVars + 2) 2 d)] →
        x ∈ [("iteration", lib.define_var_id st0.definedVars),
            ("sim_slides", lib.define_var_id (st0.definedVars + 1))] ++
          (List.finRange simDim).flatMap (fun d =>
            [(defs.ADIOS_SIZE_LOCAL ++ name_lookup d.val, axisId lib (st0.definedVars + 2) 0 d),
             (defs.ADIOS_SIZE_GLOBAL ++ name_lookup d.val,
               axisId lib (st0.definedVars + 2) 1 d),
             (defs.ADIOS_OFFSET_GLOBAL ++ name_lookup d.val,
               axisId lib (st0.definedVars + 2) 2 d)]) ++ FD := by
      intro x hx
      apply List.mem_append_left
      apply List.mem_append_right
      exact List.mem_flatMap.mpr ⟨d, List.mem_finRange d, hx⟩
    refine ⟨hm _ ?_, hm _ ?_, hm _ ?_⟩ <;> simp

/-- Witness for `writeAdios_axis_values`: a rank with `domainOffset[1] = 20` and
`globalSimulationOffset[1] = 10` writes offset 10 for dimension 1; with
`domainOffset[1] = 5` it writes 0; a rank at grid position `[50, 0]` with zero local
and global simulation offsets, local size `[50, 100]` and global window `[100, 100]`
writes local size `[50, 100]`, global size `[100, 100]` and offset `[50, 0]`. -/
theorem writeAdios_axis_values_witness :
    exampleLib.open_fd "simDataAdios_0.bp" ≠ exampleDefs.ADIOS_INVALID_HANDLE ∧
    (∃ T : List (AdiosCall Nat),
      (writeAdios exampleDefs exampleLib noPast [scalarField]
        (rankState ![0, 20] ![0, 0] ![50, 100] ![0, 10] ![100, 100])).state.calls = [] ++ T ∧
      T.filterMap AdiosCall.scalarWrite =
        [(2, 50), (3, 100), (4, 0), (5, 100), (6, 100), (7, 10)]) ∧
    (∃ T : List (AdiosCall Nat),
      (writeAdios exampleDefs exampleLib noPast [scalarField]
        (rankState ![0, 5] ![0, 0] ![50, 100] ![0, 10] ![100, 100])).state.calls = [] ++ T ∧
      T.filterMap AdiosCall.scalarWrite =
        [(2, 50), (3, 100), (4, 0), (5, 100), (6, 100), (7, 0)]) ∧
    (∃ T : List (AdiosCall Nat),
      (writeAdios exampleDefs exampleLib noPast [scalarField]
        (rankState ![50, 0] ![0, 0] ![50, 100] ![0, 0] ![100, 100])).state.calls = [] ++ T ∧
      T.filterMap AdiosCall.scalarWrite =
        [(2, 50), (3, 100), (4, 50), (5, 100), (6, 100), (7, 0)]) := by
  refine ⟨by decide, ?_, ?_, ?_⟩
  · obtain ⟨T, h1, h2, -⟩ := writeAdios_axis_values exampleDefs exampleLib noPast
      [scalarField] (rankState ![0, 20] ![0, 0] ![50, 100] ![0, 10] ![100, 100]) (by decide)
    exact ⟨T, h1, h2.trans (by decide)⟩
  · obtain ⟨T, h1, h2, -⟩ := writeAdios_axis_values exampleDefs exampleLib noPast
      [scalarField] (rankState ![0, 5] ![0, 0] ![50, 100] ![0, 10] ![100, 100]) (by decide)
    exact ⟨T, h1, h2.trans (by decide)⟩
  · obtain ⟨T, h1, h2, -⟩ := writeAdios_axis_values exampleDefs exampleLib noPast
      [scalarField] (rankState ![50, 0] ![0, 0] ![50, 100] ![0, 0] ![100, 100]) (by decide)
    exact ⟨T, h1, h2.trans (by decide)⟩

/-! ## C4 and C5: declarations and writes correspond -/

theorem length_flatMap_three {ι β : Type} (a b c : ι → β) (L : List ι) :
    (L.flatMap fun d => [a d, b d, c d]).length = 3 * L.length :=
  length_flatMap_const (fun d => [a d, b d, c d]) 3 (fun _ => rfl) L

/-- C4: when the fields are declared in order starting from the cleared handle queue
(`CollectFieldsSizes`, which calls `defineFieldVar`) and then written in the same order
(`GetFields`, which calls `writeField`) from a state whose queue is the one the
declarations left, no underflow error is raised, the queue is empty afterwards, every
call issued while declaring is a declaration and every call issued while writing is a
staged write, and the `k`-th write goes through the id returned by the `k`-th
declaration, for every `k` up to the sum of the component counts. -/
theorem field_handles_fifo {α : Type} {simDim : Nat} (defs : Defs) (lib : AdiosLib)
    (past : PastEnd) (domInfo : DomainInformation simDim)
    (fields : List (FileOutputField α simDim)) (st0 st : State α simDim)
    (h0 : st0.params.adiosFieldVarIds = [])
    (hst : st.params.adiosFieldVarIds =
      (fields.foldl (fun st f => CollectFieldsSizes defs lib st domInfo f)
        st0).params.adiosFieldVarIds) :
    (forEachGetFields past domInfo fields st).error = none ∧
    (forEachGetFields past domInfo fields st).state.params.adiosFieldVarIds = [] ∧
    ∃ D W : List (AdiosCall α),
      (fields.foldl (fun st f => CollectFieldsSizes defs lib st domInfo f) st0).calls =
        st0.calls ++ D ∧
      (forEachGetFields past domInfo fields st).state.calls = st.calls ++ W ∧
      D.length = totalComponents fields ∧
      W.length = totalComponents fields ∧
      (∀ c ∈ D, (c.declared).isSome) ∧
      W.map AdiosCall.fieldWriteId = D.map (fun c => (c.declared).map Prod.snd) := by
  rw [forEachCollectFieldsSizes_spec] at hst ⊢
  simp only [h0, List.nil_append] at hst
  have hlen : totalComponents fields ≤ st.params.adiosFieldVarIds.length := by
    rw [hst, idsFrom_length]
  obtain ⟨e0, W, e1, e2, -, e4⟩ := forEachGetFields_spec past domInfo fields st hlen
  have hD := fieldsVarCalls_declared defs lib fields st0.definedVars
  have htake : List.take (totalComponents fields) st.params.adiosFieldVarIds =
      idsFrom lib st0.definedVars (totalComponents fields) := by
    rw [hst]
    exact List.take_of_length_le (by rw [idsFrom_length])
  rw [htake] at e2
  refine ⟨e0, ?_, fieldsVarCalls defs lib fields st0.definedVars, W, rfl, e1, ?_, ?_, ?_, ?_⟩
  · rw [e4]
    simp only []
    rw [hst]
    exact List.drop_of_length_le (by rw [idsFrom_length])
  · have := congrArg List.length hD
    simpa [idsFrom_length] using this
  · have := congrArg List.length e2
    simpa [idsFrom_length] using this
  · intro c hc
    have hmem : (c.declared).map Prod.snd ∈
        (fieldsVarCalls defs lib fields st0.definedVars).map
          (fun c => (c.declared).map Prod.snd) := List.mem_map.mpr ⟨c, hc, rfl⟩
    rw [hD] at hmem
    obtain ⟨i, -, hi⟩ := List.mem_map.mp hmem
    cases hcd : c.declared with
    | none => rw [hcd] at hi; simp at hi
    | some v => rfl
  · rw [e2, hD]

/-- Witness for `field_handles_fifo`: a field with three components and a derived
field with one component. -/
theorem field_handles_fifo_witness :
    (stateOf smallLayout smallLocalSize []).params.adiosFieldVarIds = [] ∧
    (forEachGetFields noPast (primaryDomainInfo (windowOfSize smallLocalSize) (fun _ => 0))
      [vectorField, derivedField]
      (List.foldl
        (fun st f => CollectFieldsSizes exampleDefs exampleLib st
          (primaryDomainInfo (windowOfSize smallLocalSize) (fun _ => 0)) f)
        (stateOf smallLayout smallLocalSize []) [vectorField, derivedField])).error = none ∧
    (forEachGetFields noPast (primaryDomainInfo (windowOfSize smallLocalSize) (fun _ => 0))
      [vectorField, derivedField]
      (List.foldl
        (fun st f => CollectFieldsSizes exampleDefs exampleLib st
          (primaryDomainInfo (windowOfSize smallLocalSize) (fun _ => 0)) f)
        (stateOf smallLayout smallLocalSize [])
        [vectorField, derivedField])).state.params.adiosFieldVarIds = [] :=
  ⟨rfl,
    (field_handles_fifo exampleDefs exampleLib noPast
      (primaryDomainInfo (windowOfSize smallLocalSize) (fun _ => 0))
      [vectorField, derivedField] (stateOf smallLayout smallLocalSize [])
      (List.foldl
        (fun st f => CollectFieldsSizes exampleDefs exampleLib st
          (primaryDomainInfo (windowOfSize smallLocalSize) (fun _ => 0)) f)
        (stateOf smallLayout smallLocalSize []) [vectorField, derivedField]) rfl rfl).1,
    (field_handles_fifo exampleDefs exampleLib noPast
      (primaryDomainInfo (windowOfSize smallLocalSize) (fun _ => 0))
      [vectorField, derivedField] (stateOf smallLayout smallLocalSize [])
      (List.foldl
        (fun st f => CollectFieldsSizes exampleDefs exampleLib st
          (primaryDomainInfo (windowOfSize smallLocalSize) (fun _ => 0)) f)
        (stateOf smallLayout smallLocalSize []) [vectorField, derivedField]) rfl rfl).2.1⟩

/-- C5: a cycle of `writeAdios` whose open call yields a valid handle returns
normally, issues exactly `(c1 + ... + cN) + 3 * simDim + 2` variable declarations and
exactly as many variable writes, and the `k`-th write refers to the variable of the
`k`-th declaration (by its name for `adios_write`, by its returned id for
`adios_write_byid`). -/
theorem writeAdios_declaration_write_parity {α : Type} {simDim : Nat} (defs : Defs)
    (lib : AdiosLib) (past : PastEnd) (fields : List (FileOutputField α simDim))
    (st0 : State α simDim)
    (hopen : lib.open_fd st0.params.fullFilename ≠ defs.ADIOS_INVALID_HANDLE) :
    (writeAdios defs lib past fields st0).error = none ∧
    ∃ T : List (AdiosCall α),
      (writeAdios defs lib past fields st0).state.calls = st0.calls ++ T ∧
      (T.filterMap AdiosCall.declared).length =
        (fields.map fun f => f.numComponents).sum + 3 * simDim + 2 ∧
      (T.filterMap AdiosCall.written).length =
        (fields.map fun f => f.numComponents).sum + 3 * simDim + 2 ∧
      List.Forall₂
        (fun (w : String ⊕ Int) (dcl : String × Int) => w = Sum.inl dcl.1 ∨ w = Sum.inr dcl.2)
        (T.filterMap AdiosCall.written) (T.filterMap AdiosCall.declared) := by
  obtain ⟨e0, T, FD, hc, hFD, hdecl, hwr, -⟩ :=
    writeAdios_observed defs lib past fields st0 hopen
  have hFDlen : FD.length = totalComponents fields := by
    have := congrArg List.length hFD
    simpa [idsFrom_length] using this
  refine ⟨e0, T, hc, ?_, ?_, ?_⟩
  · rw [hdecl]
    simp only [List.length_append, List.length_cons, List.length_nil]
    rw [length_flatMap_three, List.length_finRange, hFDlen]
    unfold totalComponents
    omega
  · rw [hwr]
    simp only [List.length_append, List.length_cons, List.length_nil, List.length_map]
    rw [length_flatMap_three, List.length_finRange, idsFrom_length]
    unfold totalComponents
    omega
  · rw [hdecl, hwr, ← hFD]
    refine List.rel_append (List.rel_append ?_ ?_) (forall₂_written_declared FD)
    · exact List.Forall₂.cons (Or.inl rfl) (List.Forall₂.cons (Or.inl rfl) List.Forall₂.nil)
    · apply forall₂_flatMap_same
      intro d
      exact List.Forall₂.cons (Or.inr rfl)
        (List.Forall₂.cons (Or.inr rfl) (List.Forall₂.cons (Or.inr rfl) List.Forall₂.nil))

/-- Witness for `writeAdios_declaration_write_parity`: a 3-D cycle with a field of
three components and a derived field of one component. -/
theorem writeAdios_declaration_write_parity_witness :
    exampleLib.open_fd (stateOf smallLayout smallLocalSize []).params.fullFilename ≠
      exampleDefs.ADIOS_INVALID_HANDLE ∧
    (writeAdios exampleDefs exampleLib noPast [vectorField, derivedField]
      (stateOf smallLayout smallLocalSize [])).error = none :=
  ⟨by decide,
    (writeAdios_declaration_write_parity exampleDefs exampleLib noPast
      [vectorField, derivedField] (stateOf smallLayout smallLocalSize []) (by decide)).1⟩

/-! ## C7: the bytes a field adds to the group size -/

theorem CollectFieldsSizes_adiosGroupSize {α : Type} {simDim : Nat} (defs : Defs)
    (lib : AdiosLib) (st : State α simDim) (domInfo : DomainInformation simDim)
    (f : FileOutputField α simDim) :
    (CollectFieldsSizes defs lib st domInfo f).params.adiosGroupSize =
      addSizeT st.params.adiosGroupSize (localGroupSize f domInfo) := by
  unfold CollectFieldsSizes
  rw [defineFieldVar_spec]

theorem map_kind_of_forall {α : Type} (k : CallKind) (L : List (AdiosCall α))
    (h : ∀ c ∈ L, c.kind = k) : L.map AdiosCall.kind = List.replicate L.length k := by
  induction L with
  | nil => rfl
  | cons a L ih =>
    rw [List.map_cons, List.length_cons, List.replicate_succ,
      h a (List.mem_cons_self _ _), ih (fun c hc => h c (List.mem_cons_of_mem _ hc))]

theorem fieldsVarCalls_kind {α : Type} {simDim : Nat} (defs : Defs) (lib : AdiosLib) :
    ∀ (fields : List (FileOutputField α simDim)) (n : Nat),
      ∀ c ∈ fieldsVarCalls defs lib fields n, c.kind = CallKind.adios_define_var := by
  intro fields
  induction fields with
  | nil => intro n c hc; simp [fieldsVarCalls] at hc
  | cons f fs ih =>
    intro n c hc
    rw [fieldsVarCalls, List.mem_append] at hc
    rcases hc with hc | hc
    · simp only [fieldVarCalls, List.mem_map] at hc
      obtain ⟨j, -, rfl⟩ := hc
      rfl
    · exact ih _ c hc

theorem fieldsVarCalls_length {α : Type} {simDim : Nat} (defs : Defs) (lib : AdiosLib)
    (fields : List (FileOutputField α simDim)) (n : Nat) :
    (fieldsVarCalls defs lib fields n).length = totalComponents fields := by
  have h := congrArg List.length (fieldsVarCalls_declared defs lib fields n)
  simpa [idsFrom_length] using h

theorem fieldWrites_kind {α : Type} :
    ∀ (W : List (AdiosCall α)) (ids : List Int),
      W.map AdiosCall.fieldWriteId = ids.map some →
      W.map AdiosCall.kind = List.replicate ids.length CallKind.adios_write_byid := by
  intro W
  induction W with
  | nil =>
    intro ids h
    cases ids with
    | nil => rfl
    | cons i ids => simp at h
  | cons c W ih =>
    intro ids h
    cases ids with
    | nil => simp at h
    | cons i ids =>
      simp only [List.map_cons, List.cons.injEq] at h
      have hk : c.kind = CallKind.adios_write_byid := by
        cases c with
        | adios_write_byid fd j data => rfl
        | _ => simp [AdiosCall.fieldWriteId] at h
      rw [List.map_cons, hk, ih ids h.2, List.length_cons, List.replicate_succ]

theorem declaringCalls_kind {α : Type} {simDim : Nat} (defs : Defs) (lib : AdiosLib)
    (fields : List (FileOutputField α simDim)) (n : Nat) :
    (declaringCalls defs lib fields n).map AdiosCall.kind =
      [CallKind.adios_declare_group, CallKind.adios_select_method] ++
        List.replicate (2 + 3 * simDim + totalComponents fields) CallKind.adios_define_var := by
  have h1 : ((List.finRange simDim).flatMap
      (axisVarCalls defs (axisId lib (n + 2) 0) (axisId lib (n + 2) 1)
        (axisId lib (n + 2) 2) : Fin simDim → List (AdiosCall α))).map AdiosCall.kind =
      List.replicate (3 * simDim) CallKind.adios_define_var := by
    have hl : ((List.finRange simDim).flatMap
        (axisVarCalls defs (axisId lib (n + 2) 0) (axisId lib (n + 2) 1)
          (axisId lib (n + 2) 2) : Fin simDim → List (AdiosCall α))).length = 3 * simDim := by
      rw [length_flatMap_const (axisVarCalls defs (axisId lib (n + 2) 0)
        (axisId lib (n + 2) 1) (axisId lib (n + 2) 2)) 3 (fun _ => rfl),
        List.length_finRange]
    rw [map_kind_of_forall CallKind.adios_define_var, hl]
    intro c hc
    obtain ⟨d, -, hd⟩ := List.mem_flatMap.mp hc
    simp only [axisVarCalls, List.mem_cons, List.mem_singleton, List.not_mem_nil,
      or_false] at hd
    rcases hd with rfl | rfl | rfl <;> rfl
  have h2 := map_kind_of_forall CallKind.adios_define_var
    (fieldsVarCalls defs lib fields (n + 2 + 3 * simDim))
    (fieldsVarCalls_kind defs lib fields _)
  rw [fieldsVarCalls_length] at h2
  unfold declaringCalls
  rw [List.map_append, List.map_append, h1, h2]
  simp only [List.map_cons, List.map_nil, AdiosCall.kind]
  rw [show 2 + 3 * simDim + totalComponents fields =
    (3 * simDim + totalComponents fields) + 1 + 1 by omega, List.replicate_succ,
    List.replicate_succ, List.replicate_add]
  simp

/-- A cycle of `writeAdios` whose open call leaves the invalid handle: the function
throws right after the open call. -/
theorem writeAdios_invalid {α : Type} {simDim : Nat} (defs : Defs) (lib : AdiosLib)
    (past : PastEnd) (fields : List (FileOutputField α simDim)) (st0 : State α simDim)
    (hinv : lib.open_fd st0.params.fullFilename = defs.ADIOS_INVALID_HANDLE) :
    (writeAdios defs lib past fields st0).error = some "Failed to open ADIOS file" ∧
    (writeAdios defs lib past fields st0).state.calls =
      st0.calls ++
        (declaringCalls defs lib fields st0.definedVars ++
          [AdiosCall.adios_open defs.ADIOS_FIELDS_NAME st0.params.fullFilename "w"
            (lib.open_fd st0.params.fullFilename)]) := by
  have hd := defineAdiosVars_spec defs lib fields
    (primaryDomainInfo st0.params.window st0.params.gridPosition) st0
  have hfn : (defineAdiosVars defs lib fields
      (primaryDomainInfo st0.params.window st0.params.gridPosition) st0).params.fullFilename =
      st0.params.fullFilename := by rw [hd]
  unfold writeAdios
  simp only [hfn, hinv, if_true]
  rw [hd]
  simp [declaringCalls]

/-- A cycle of `writeAdios` whose open call yields a valid handle, with the
declarations gathered in `declaringCalls`. -/
theorem writeAdios_valid {α : Type} {simDim : Nat} (defs : Defs) (lib : AdiosLib)
    (past : PastEnd) (fields : List (FileOutputField α simDim)) (st0 : State α simDim)
    (hopen : lib.open_fd st0.params.fullFilename ≠ defs.ADIOS_INVALID_HANDLE) :
    (writeAdios defs lib past fields st0).error = none ∧
    ∃ (A W : List (AdiosCall α)),
      A.map AdiosCall.kind = List.replicate (3 * simDim) CallKind.adios_write_byid ∧
      W.map AdiosCall.kind =
        List.replicate (totalComponents fields) CallKind.adios_write_byid ∧
      (writeAdios defs lib past fields st0).state.calls =
        st0.calls ++
          (declaringCalls defs lib fields st0.definedVars ++
            [AdiosCall.adios_open defs.ADIOS_FIELDS_NAME st0.params.fullFilename "w"
               (lib.open_fd st0.params.fullFilename),
             AdiosCall.adios_group_size (lib.open_fd st0.params.fullFilename)
               (fields.foldl
                 (fun g f => addSizeT g (localGroupSize f
                   (primaryDomainInfo st0.params.window st0.params.gridPosition)))
                 ((List.finRange simDim).foldl (fun g _ => addSizeT g (sizeof_int * 3))
                   (2 * sizeof_int))),
             AdiosCall.adios_write (lib.open_fd st0.params.fullFilename) "iteration"
               st0.params.currentStep,
             AdiosCall.adios_write (lib.open_fd st0.params.fullFilename) "sim_slides"
               st0.params.window.slides] ++
            A ++ W ++
            [AdiosCall.adios_close (lib.open_fd st0.params.fullFilename),
             AdiosCall.MPI_Barrier]) := by
  obtain ⟨e0, W, hW, -, hc⟩ := writeAdios_spec defs lib past fields st0 hopen
  refine ⟨e0, _, W, ?_, ?_, hc⟩
  · have hl : ((List.finRange simDim).flatMap (fun d =>
          [AdiosCall.adios_write_byid (α := α) (lib.open_fd st0.params.fullFilename)
             (axisId lib (st0.definedVars + 2) 0 d)
             (Payload.scalar (st0.params.window.localSize d)),
           AdiosCall.adios_write_byid (lib.open_fd st0.params.fullFilename)
             (axisId lib (st0.definedVars + 2) 1 d)
             (Payload.scalar (st0.params.window.globalWindowSize d)),
           AdiosCall.adios_write_byid (lib.open_fd st0.params.fullFilename)
             (axisId lib (st0.definedVars + 2) 2 d)
             (Payload.scalar
               (writtenOffset
                 (primaryDomainInfo st0.params.window st0.params.gridPosition) d))])).length =
        3 * simDim := by
      rw [length_flatMap_three, List.length_finRange]
    rw [map_kind_of_forall CallKind.adios_write_byid, hl]
    intro c hc
    obtain ⟨d, -, hd⟩ := List.mem_flatMap.mp hc
    simp only [List.mem_cons, List.mem_singleton, List.not_mem_nil, or_false] at hd
    rcases hd with rfl | rfl | rfl <;> rfl
  · have := fieldWrites_kind W _ hW
    rwa [idsFrom_length] at this

/-! ## C12 and C17: the open call and the order of the calls -/

/-- C12: `writeAdios` ends with the error "Failed to open ADIOS file" exactly when the
open call leaves the file handle equal to the invalid handle; in that case the calls
of the cycle are the group set-up, the variable declarations and the open call, and
none of them is a reservation (`adios_group_size`), a write (`adios_write`,
`adios_write_byid`), a close call or the barrier. -/
theorem writeAdios_failed_open {α : Type} {simDim : Nat} (defs : Defs) (lib : AdiosLib)
    (past : PastEnd) (fields : List (FileOutputField α simDim)) (st0 : State α simDim) :
    ((writeAdios defs lib past fields st0).error = some "Failed to open ADIOS file" ↔
      lib.open_fd st0.params.fullFilename = defs.ADIOS_INVALID_HANDLE) ∧
    (lib.open_fd st0.params.fullFilename = defs.ADIOS_INVALID_HANDLE →
      ∃ T : List (AdiosCall α),
        (writeAdios defs lib past fields st0).state.calls = st0.calls ++ T ∧
        T.map AdiosCall.kind =
          [CallKind.adios_declare_group, CallKind.adios_select_method] ++
            List.replicate (2 + 3 * simDim + totalComponents fields)
              CallKind.adios_define_var ++
            [CallKind.adios_open] ∧
        ∀ c ∈ T, c.kind ≠ CallKind.adios_group_size ∧ c.kind ≠ CallKind.adios_write ∧
          c.kind ≠ CallKind.adios_write_byid ∧ c.kind ≠ CallKind.adios_close ∧
          c.kind ≠ CallKind.MPI_Barrier) := by
  have hkinds : lib.open_fd st0.params.fullFilename = defs.ADIOS_INVALID_HANDLE →
      (declaringCalls defs lib fields st0.definedVars ++
        [AdiosCall.adios_open (α := α) defs.ADIOS_FIELDS_NAME st0.params.fullFilename "w"
          (lib.open_fd st0.params.fullFilename)]).map AdiosCall.kind =
        [CallKind.adios_declare_group, CallKind.adios_select_method] ++
          List.replicate (2 + 3 * simDim + totalComponents fields)
            CallKind.adios_define_var ++
          [CallKind.adios_open] := by
    intro _
    rw [List.map_append, declaringCalls_kind]
    rfl
  constructor
  · constructor
    · intro he
      by_contra hne
      have := (writeAdios_valid defs lib past fields st0 hne).1
      rw [this] at he
      cases he
    · intro hinv
      exact (writeAdios_invalid defs lib past fields st0 hinv).1
  · intro hinv
    refine ⟨_, (writeAdios_invalid defs lib past fields st0 hinv).2, hkinds hinv, ?_⟩
    intro c hc
    have hm : c.kind ∈
        [CallKind.adios_declare_group, CallKind.adios_select_method] ++
          List.replicate (2 + 3 * simDim + totalComponents fields)
            CallKind.adios_define_var ++
          [CallKind.adios_open] := by
      rw [← hkinds hinv]
      exact List.mem_map.mpr ⟨c, hc, rfl⟩
    simp only [List.mem_append, List.mem_cons, List.mem_singleton, List.not_mem_nil,
      or_false, List.mem_replicate] at hm
    rcases hm with ((h | h) | h) | h
    · rw [h]; decide
    · rw [h]; decide
    · rw [h.2]; decide
    · rw [h]; decide

/-- C17 (as amended): the kinds of the calls of a cycle of `writeAdios`, in order:
the group set-up, then every variable declaration (two scalars, three per dimension,
one per field component), then the open call; when the open call leaves the invalid
handle the cycle ends there, otherwise the reservation follows, then the writes (two
scalars by name, three per dimension and one per field component by id), then the
close call and last the barrier. So every declaration precedes the open call, the
reservation and every write, no declaration follows a write, and in a cycle whose
open call succeeds the close call followed by the barrier are the last calls. -/
theorem writeAdios_call_order {α : Type} {simDim : Nat} (defs : Defs) (lib : AdiosLib)
    (past : PastEnd) (fields : List (FileOutputField α simDim)) (st0 : State α simDim) :
    ∃ T : List (AdiosCall α),
      (writeAdios defs lib past fields st0).state.calls = st0.calls ++ T ∧
      T.map AdiosCall.kind =
        [CallKind.adios_declare_group, CallKind.adios_select_method] ++
          List.replicate (2 + 3 * simDim + totalComponents fields)
            CallKind.adios_define_var ++
          [CallKind.adios_open] ++
          (if lib.open_fd st0.params.fullFilename = defs.ADIOS_INVALID_HANDLE then []
           else
            [CallKind.adios_group_size, CallKind.adios_write, CallKind.adios_write] ++
              List.replicate (3 * simDim + totalComponents fields)
                CallKind.adios_write_byid ++
              [CallKind.adios_close, CallKind.MPI_Barrier]) := by
  by_cases hinv : lib.open_fd st0.params.fullFilename = defs.ADIOS_INVALID_HANDLE
  · refine ⟨_, (writeAdios_invalid defs lib past fields st0 hinv).2, ?_⟩
    rw [List.map_append, declaringCalls_kind]
    simp [hinv, AdiosCall.kind]
  · obtain ⟨-, A, W, hA, hW, hc⟩ := writeAdios_valid defs lib past fields st0 hinv
    refine ⟨_, hc, ?_⟩
    simp only [List.map_append, declaringCalls_kind, hA, hW, hinv, if_false,
      List.replicate_add]
    simp [AdiosCall.kind]

/-- C17 (as stated) fails for a cycle whose open call leaves the invalid handle: the
last call of the cycle is `adios_open`, and no close call and no barrier is issued. -/
theorem writeAdios_failed_cycle_ends_with_open :
    failingLib.open_fd (stateOf smallLayout smallLocalSize []).params.fullFilename =
      exampleDefs.ADIOS_INVALID_HANDLE ∧
    ((writeAdios exampleDefs failingLib noPast [vectorField]
      (stateOf smallLayout smallLocalSize [])).state.calls.map AdiosCall.kind).getLast? =
      some CallKind.adios_open ∧
    CallKind.adios_close ∉
      (writeAdios exampleDefs failingLib noPast [vectorField]
        (stateOf smallLayout smallLocalSize [])).state.calls.map AdiosCall.kind ∧
    CallKind.MPI_Barrier ∉
      (writeAdios exampleDefs failingLib noPast [vectorField]
        (stateOf smallLayout smallLocalSize [])).state.calls.map AdiosCall.kind := by
  refine ⟨by decide, by decide, by decide, by decide⟩

/-! ## C15: the size passed to the reservation call -/

theorem foldl_addSizeT {ι : Type} (v : ι → Nat) :
    ∀ (L : List ι) (g : Nat), g < 18446744073709551616 →
      L.foldl (fun g x => addSizeT g (v x)) g =
        (g + (L.map v).sum) % 18446744073709551616 := by
  intro L
  induction L with
  | nil => intro g hg; simp [Nat.mod_eq_of_lt hg]
  | cons a L ih =>
    intro g hg
    have hlt : addSizeT g (v a) < 18446744073709551616 := Nat.mod_lt _ (by norm_num)
    rw [List.foldl_cons, ih _ hlt]
    simp only [addSizeT, List.map_cons, List.sum_cons]
    rw [Nat.add_mod, Nat.mod_mod, ← Nat.add_mod, Nat.add_assoc]

theorem reserved_of_kind {α : Type} (k : CallKind) (hk : k ≠ CallKind.adios_group_size) :
    ∀ (L : List (AdiosCall α)) (n : Nat), L.map AdiosCall.kind = List.replicate n k →
      L.filterMap AdiosCall.reserved = [] := by
  intro L n h
  apply List.filterMap_eq_nil_iff.mpr
  intro c hc
  have hm : c.kind ∈ List.replicate n k := by
    rw [← h]; exact List.mem_map.mpr ⟨c, hc, rfl⟩
  have hck : c.kind = k := (List.mem_replicate.mp hm).2
  cases c with
  | adios_group_size fd s => exact absurd hck.symm hk
  | _ => rfl

theorem declaringCalls_reserved {α : Type} {simDim : Nat} (defs : Defs) (lib : AdiosLib)
    (fields : List (FileOutputField α simDim)) (n : Nat) :
    (declaringCalls defs lib fields n).filterMap AdiosCall.reserved = [] := by
  apply List.filterMap_eq_nil_iff.mpr
  intro c hc
  have hm : c.kind ∈ (declaringCalls defs lib fields n).map AdiosCall.kind :=
    List.mem_map.mpr ⟨c, hc, rfl⟩
  rw [declaringCalls_kind] at hm
  simp only [List.mem_append, List.mem_cons, List.mem_singleton, List.not_mem_nil,
    or_false, List.mem_replicate] at hm
  cases c with
  | adios_group_size fd s =>
    rcases hm with (h | h) | h
    · cases h
    · cases h
    · cases h.2
  | _ => rfl

/-- The sizes passed to `adios_group_size` in a cycle of `writeAdios` whose open call
yields a valid handle. -/
theorem writeAdios_reserved {α : Type} {simDim : Nat} (defs : Defs) (lib : AdiosLib)
    (past : PastEnd) (fields : List (FileOutputField α simDim)) (st0 : State α simDim)
    (hopen : lib.open_fd st0.params.fullFilename ≠ defs.ADIOS_INVALID_HANDLE) :
    ∃ T : List (AdiosCall α),
      (writeAdios defs lib past fields st0).state.calls = st0.calls ++ T ∧
      T.filterMap AdiosCall.reserved =
        [(2 * 4 + 3 * 4 * simDim +
          (fields.map fun f => localGroupSize f
            (primaryDomainInfo st0.params.window st0.params.gridPosition)).sum) % 2 ^ 64] := by
  obtain ⟨-, A, W, hA, hW, hc⟩ := writeAdios_valid defs lib past fields st0 hopen
  refine ⟨_, hc, ?_⟩
  have hbase : (List.finRange simDim).foldl (fun g _ => addSizeT g (sizeof_int * 3))
      (2 * sizeof_int) = (2 * 4 + 3 * 4 * simDim) % 18446744073709551616 := by
    rw [foldl_addSizeT (fun _ => sizeof_int * 3) _ _ (by decide)]
    simp [sizeof_int, List.length_finRange]
    congr 1
    ring
  have hblt : (2 * 4 + 3 * 4 * simDim) % 18446744073709551616 < 18446744073709551616 :=
    Nat.mod_lt _ (by norm_num)
  rw [hbase, foldl_addSizeT _ _ _ hblt]
  simp only [List.filterMap_append, declaringCalls_reserved,
    reserved_of_kind CallKind.adios_write_byid (by decide) A _ hA,
    reserved_of_kind CallKind.adios_write_byid (by decide) W _ hW]
  simp [AdiosCall.reserved, List.filterMap_cons]

/-- C15: in a cycle of `writeAdios` whose open call yields a valid handle there is
exactly one reservation call, and the size passed to it is the base
`2 * sizeof(unsigned int)` plus `3 * sizeof(int)` for each of the `simDim` dimensions
plus the sum of the contributions `localGroupSize` that `CollectFieldsSizes` adds for
the fields, in `uint64_t` arithmetic (reduced modulo `2^64`, hence the sum itself when
it fits); the size is the same whatever value the accumulator `adiosGroupSize` held
before the cycle. -/
theorem writeAdios_group_size {α : Type} {simDim : Nat} (defs : Defs) (lib : AdiosLib)
    (past : PastEnd) (fields : List (FileOutputField α simDim)) (st0 : State α simDim)
    (hopen : lib.open_fd st0.params.fullFilename ≠ defs.ADIOS_INVALID_HANDLE) :
    (∀ (st : State α simDim) (f : FileOutputField α simDim),
      (CollectFieldsSizes defs lib st
        (primaryDomainInfo st0.params.window st0.params.gridPosition) f).params.adiosGroupSize =
        (st.params.adiosGroupSize + localGroupSize f
          (primaryDomainInfo st0.params.window st0.params.gridPosition)) % 2 ^ 64) ∧
    (∃ T : List (AdiosCall α),
      (writeAdios defs lib past fields st0).state.calls = st0.calls ++ T ∧
      T.filterMap AdiosCall.reserved =
        [(2 * 4 + 3 * 4 * simDim +
          (fields.map fun f => localGroupSize f
            (primaryDomainInfo st0.params.window st0.params.gridPosition)).sum) % 2 ^ 64] ∧
      (2 * 4 + 3 * 4 * simDim +
          (fields.map fun f => localGroupSize f
            (primaryDomainInfo st0.params.window st0.params.gridPosition)).sum < 2 ^ 64 →
        T.filterMap AdiosCall.reserved =
          [2 * 4 + 3 * 4 * simDim +
            (fields.map fun f => localGroupSize f
              (primaryDomainInfo st0.params.window st0.params.gridPosition)).sum])) ∧
    (∀ previous : Nat, ∃ T : List (AdiosCall α),
      (writeAdios defs lib past fields
        { st0 with params := { st0.params with adiosGroupSize := previous } }).state.calls =
        st0.calls ++ T ∧
      T.filterMap AdiosCall.reserved =
        [(2 * 4 + 3 * 4 * simDim +
          (fields.map fun f => localGroupSize f
            (primaryDomainInfo st0.params.window st0.params.gridPosition)).sum) % 2 ^ 64]) := by
  refine ⟨?_, ?_, ?_⟩
  · intro st f
    rw [CollectFieldsSizes_adiosGroupSize]
    rfl
  · obtain ⟨T, h1, h2⟩ := writeAdios_reserved defs lib past fields st0 hopen
    refine ⟨T, h1, h2, fun hfit => ?_⟩
    rw [h2, Nat.mod_eq_of_lt hfit]
  · intro previous
    exact writeAdios_reserved defs lib past fields
      { st0 with params := { st0.params with adiosGroupSize := previous } } hopen

/-- Witness for `writeAdios_group_size`: a 3-D cycle with a field of three components
and a derived field of one component on a window of 3 x 2 x 2 cells reserves
`8 + 36 + (12 * 4 + 12) * 3 + 12 * 8 * 1 = 320` bytes. -/
theorem writeAdios_group_size_witness :
    exampleLib.open_fd (stateOf smallLayout smallLocalSize []).params.fullFilename ≠
      exampleDefs.ADIOS_INVALID_HANDLE ∧
    ∃ T : List (AdiosCall Nat),
      (writeAdios exampleDefs exampleLib noPast [vectorField, derivedField]
        (stateOf smallLayout smallLocalSize [])).state.calls =
        (stateOf smallLayout smallLocalSize []).calls ++ T ∧
      T.filterMap AdiosCall.reserved = [320] := by
  refine ⟨by decide, ?_⟩
  obtain ⟨T, h1, h2, -⟩ := (writeAdios_group_size exampleDefs exampleLib noPast
    [vectorField, derivedField] (stateOf smallLayout smallLocalSize []) (by decide)).2.1
  exact ⟨T, h1, h2.trans (by decide)⟩

/-! ## C16: the declared axis variables and the shape expressions -/

/-- C16: for `simDim` 2 or 3, with the axis names `x, y, z` restricted to the first
`simDim`: each of the three shape expressions built by `defineFieldVar` is the
comma-separated list of the `simDim` size (or offset) variable names in axis order;
`defineAdiosFieldVars` issues exactly `3 * simDim` declarations, the local size, global
size and global offset variable of each axis in axis order; `defineFieldVar` issues
exactly `nComponents` declarations, each with the three shape expressions, and appends
the returned ids to the handle queue in component order. -/
theorem declared_shapes {α : Type} {simDim : Nat} (defs : Defs) (lib : AdiosLib)
    (st : State α simDim) (nComponents : Nat) (adiosType : ADIOS_DATATYPES) (name : String)
    (hD : simDim = 2 ∨ simDim = 3) :
    (List.range simDim).map name_lookup = ["x", "y", "z"].take simDim ∧
    fieldShapeStrs defs simDim =
      (String.intercalate ","
         ((["x", "y", "z"].take simDim).map fun a => defs.ADIOS_SIZE_LOCAL ++ a),
       String.intercalate ","
         ((["x", "y", "z"].take simDim).map fun a => defs.ADIOS_SIZE_GLOBAL ++ a),
       String.intercalate ","
         ((["x", "y", "z"].take simDim).map fun a => defs.ADIOS_OFFSET_GLOBAL ++ a)) ∧
    (∃ D : List (AdiosCall α),
      (defineAdiosFieldVars defs lib st).calls = st.calls ++ D ∧
      D.length = 3 * simDim ∧
      D.map (fun c => (c.declared).map Prod.fst) =
        (["x", "y", "z"].take simDim).flatMap fun a =>
          [some (defs.ADIOS_SIZE_LOCAL ++ a), some (defs.ADIOS_SIZE_GLOBAL ++ a),
           some (defs.ADIOS_OFFSET_GLOBAL ++ a)]) ∧
    (defineFieldVar defs lib st nComponents adiosType name).calls =
      st.calls ++ (List.range nComponents).map (fun c =>
        AdiosCall.adios_define_var (datasetName defs name nComponents c) adiosType
          (some (fieldShapeStrs defs simDim).1) (some (fieldShapeStrs defs simDim).2.1)
          (some (fieldShapeStrs defs simDim).2.2) (lib.define_var_id (st.definedVars + c))) ∧
    (defineFieldVar defs lib st nComponents adiosType name).params.adiosFieldVarIds =
      st.params.adiosFieldVarIds ++
        (List.range nComponents).map (fun c => lib.define_var_id (st.definedVars + c)) := by
  have hnames : (List.range simDim).map name_lookup = ["x", "y", "z"].take simDim := by
    rcases hD with rfl | rfl <;> decide
  have haxis : ((List.finRange simDim).flatMap
      (axisVarCalls defs (axisId lib st.definedVars 0) (axisId lib st.definedVars 1)
        (axisId lib st.definedVars 2) : Fin simDim → List (AdiosCall α))).map
        (fun c => (c.declared).map Prod.fst) =
      ((List.range simDim).map name_lookup).flatMap fun a =>
        [some (defs.ADIOS_SIZE_LOCAL ++ a), some (defs.ADIOS_SIZE_GLOBAL ++ a),
         some (defs.ADIOS_OFFSET_GLOBAL ++ a)] := by
    rw [← List.map_coe_finRange, List.map_map, List.flatMap_map, List.map_flatMap]
    rfl
  refine ⟨hnames, ?_, ?_, ?_, ?_⟩
  · rcases hD with rfl | rfl <;>
      simp [fieldShapeStrs, List.range_succ, name_lookup, name_lookup_tpl, String.intercalate,
        String.intercalate.go, String.append_assoc]
  · refine ⟨_, by rw [defineAdiosFieldVars_spec], ?_, ?_⟩
    · rw [length_flatMap_const (axisVarCalls defs (axisId lib st.definedVars 0)
        (axisId lib st.definedVars 1) (axisId lib st.definedVars 2)) 3 (fun _ => rfl),
        List.length_finRange]
    · rw [haxis, hnames]
  · rw [defineFieldVar_spec]
    rfl
  · rw [defineFieldVar_spec]
    rfl

/-- Witness for `declared_shapes`: in two dimensions the local shape expression is
`size_x,size_y`. -/
theorem declared_shapes_witness :
    ((2 : Nat) = 2 ∨ (2 : Nat) = 3) ∧
    (fieldShapeStrs exampleDefs 2).1 = "size_x,size_y" ∧
    (fieldShapeStrs exampleDefs 2).2.1 = "totalSize_x,totalSize_y" ∧
    (fieldShapeStrs exampleDefs 2).2.2 = "offset_x,offset_y" := by
  have h := (declared_shapes exampleDefs exampleLib
    (rankState ![0, 0] ![0, 0] ![50, 100] ![0, 0] ![100, 100]) 1
    (ADIOS_DATATYPES.PICToAdios "float") "FieldRho" (Or.inl rfl)).2.1
  refine ⟨Or.inl rfl, ?_, ?_, ?_⟩
  · rw [h]; decide
  · rw [h]; decide
  · rw [h]; decide

/-! ## Decimal rendering -/

theorem mem_copyIndices_of_lt {simDim : Nat} (F N G : DataSpace simDim) (past : PastEnd)
    (C d z y x : Nat) (hz : z < (N.idx 2 past.field_no_guard).toNat)
    (hy : y < (N.idx 1 past.field_no_guard).toNat)
    (hx : x < (N.idx 0 past.field_no_guard).toNat) :
    (index_dst N past z y x, index_src F G past C d z y x) ∈ copyIndices F N G past C d := by
  unfold copyIndices
  simp only [List.mem_flatMap, List.mem_map, List.mem_range]
  exact ⟨z, hz, y, hy, x, hx, rfl⟩

theorem copyIndices_length {simDim : Nat} (F N G : DataSpace simDim) (past : PastEnd)
    (C d : Nat) :
    (copyIndices F N G past C d).length =
      (N.idx 2 past.field_no_guard).toNat *
        ((N.idx 1 past.field_no_guard).toNat * (N.idx 0 past.field_no_guard).toNat) := by
  unfold copyIndices
  rw [length_flatMap_const _
    ((N.idx 1 past.field_no_guard).toNat * (N.idx 0 past.field_no_guard).toNat)]
  · rw [List.length_range]; ring
  · intro z
    rw [length_flatMap_const _ (N.idx 0 past.field_no_guard).toNat]
    · rw [List.length_range]; ring
    · intro y
      rw [List.length_map, List.length_range]

/-- C11 (as amended): `writeField` makes no check of the geometry against the layout.
For every layout and geometry, fitting or not: its only error is the one for an empty
handle queue, raised exactly when fewer than `nComponents` handles are queued; the copy
loops visit every cell of the local size (one assignment per cell, with the source index
computed from the layout, not clamped to the padded shape); and for every component
with a queued handle the staged buffer is handed to the backend through that handle. -/
theorem writeField_no_geometry_check {α : Type} {simDim : Nat} (past : PastEnd)
    (st : State α simDim) (domInfo : DomainInformation simDim) (nComponents : Nat)
    (ptr : Nat → α) :
    ((writeField past st domInfo nComponents ptr).error = none ↔
      nComponents ≤ st.params.adiosFieldVarIds.length) ∧
    ((writeField past st domInfo nComponents ptr).error = none ∨
      (writeField past st domInfo nComponents ptr).error =
        some "Cannot write field (var id list is empty)") ∧
    (∀ d : Nat,
      (copyIndices st.params.gridLayout.dataSpace domInfo.domainSize
        (st.params.gridLayout.guard + domInfo.localDomainOffset) past nComponents d).length =
        (domInfo.domainSize.idx 2 past.field_no_guard).toNat *
          ((domInfo.domainSize.idx 1 past.field_no_guard).toNat *
            (domInfo.domainSize.idx 0 past.field_no_guard).toNat) ∧
      ∀ z y x : Nat, z < (domInfo.domainSize.idx 2 past.field_no_guard).toNat →
        y < (domInfo.domainSize.idx 1 past.field_no_guard).toNat →
        x < (domInfo.domainSize.idx 0 past.field_no_guard).toNat →
        (index_dst domInfo.domainSize past z y x,
          index_src st.params.gridLayout.dataSpace
            (st.params.gridLayout.guard + domInfo.localDomainOffset) past nComponents d z y x) ∈
          copyIndices st.params.gridLayout.dataSpace domInfo.domainSize
            (st.params.gridLayout.guard + domInfo.localDomainOffset) past nComponents d) ∧
    (∀ (d : Nat) (id : Int), d < nComponents → st.params.adiosFieldVarIds[d]? = some id →
      ∃ before : Nat → α,
        (writeField past st domInfo nComponents ptr).state.calls[st.calls.length + d]? =
          some (AdiosCall.adios_write_byid st.params.adiosFileHandle id
            (Payload.buffer
              (copyComponent st.params.gridLayout.dataSpace domInfo.domainSize
                (st.params.gridLayout.guard + domInfo.localDomainOffset) past nComponents d
                ptr before)))) := by
  obtain ⟨bfr, h1, h2⟩ := writeField_spec past st domInfo nComponents ptr
  refine ⟨?_, ?_, ?_, ?_⟩
  · rw [h2]
    by_cases h : st.params.adiosFieldVarIds.length < nComponents
    · simp [h]
    · simp [h]; omega
  · rw [h2]
    by_cases h : st.params.adiosFieldVarIds.length < nComponents
    · right; simp [h]
    · left; simp [h]
  · intro d
    exact ⟨copyIndices_length _ _ _ past nComponents d,
      fun z y x hz hy hx => mem_copyIndices_of_lt _ _ _ past nComponents d z y x hz hy hx⟩
  · intro d id hd hid
    have hdr : (List.range nComponents)[d]? = some d := by
      rw [List.getElem?_range hd]
    obtain ⟨before, hb⟩ := stagedWrites_get st.params.gridLayout.dataSpace
      domInfo.domainSize (st.params.gridLayout.guard + domInfo.localDomainOffset) past
      nComponents ptr st.params.adiosFileHandle (List.range nComponents)
      st.params.adiosFieldVarIds st.params.fieldBfr d d id hdr hid
    refine ⟨before, ?_⟩
    rw [h1]
    simp only []
    rw [List.getElem?_append_right (Nat.le_add_right _ _), Nat.add_sub_cancel_left]
    exact hb

/-- C11 (as stated) fails: with a padded shape of a single cell, no guard, and a local
size of 2 x 1 x 1 cells (so guard + offset + local size exceeds the padded shape in
dimension 0), `writeField` reports no error, executes the assignment
`fieldBfr[1] = ptr[1]` although the source holds `1*1*1*1` elements, and hands the
staged buffer holding that element to the backend. -/
theorem writeField_inconsistent_geometry_not_reported :
    (∃ i : Fin 3, tinyLayout.dataSpace i <
      tinyLayout.guard i +
        (primaryDomainInfo (windowOfSize longLocalSize) (fun _ => 0)).localDomainOffset i +
        (primaryDomainInfo (windowOfSize longLocalSize) (fun _ => 0)).domainSize i) ∧
    (writeField noPast (stateOf tinyLayout longLocalSize [11])
      (primaryDomainInfo (windowOfSize longLocalSize) (fun _ => 0)) 1 indexSource).error =
        none ∧
    ((1, 1) : Nat × Nat) ∈ copyIndices tinyLayout.dataSpace
      (primaryDomainInfo (windowOfSize longLocalSize) (fun _ => 0)).domainSize
      (tinyLayout.guard +
        (primaryDomainInfo (windowOfSize longLocalSize) (fun _ => 0)).localDomainOffset)
      noPast 1 0 ∧
    ¬ (1 < 1 * 1 * 1 * 1) ∧
    ∃ staging : Nat → Nat,
      (writeField noPast (stateOf tinyLayout longLocalSize [11])
        (primaryDomainInfo (windowOfSize longLocalSize) (fun _ => 0)) 1
        indexSource).state.calls =
        [AdiosCall.adios_write_byid 7 11 (Payload.buffer staging)] ∧
      staging 1 = indexSource 1 := by
  refine ⟨⟨0, by decide⟩, rfl, by decide, by decide,
    copyComponent tinyLayout.dataSpace longLocalSize (tinyLayout.guard + (fun _ => 0)) noPast
      1 0 indexSource (fun _ => 0), rfl, by decide⟩

/-! ## C14: writeField in two dimensions -/

theorem copyIndices_eq_nil_of_past (F N G : DataSpace 2) (past : PastEnd) (C d : Nat)
    (h : past.field_no_guard 2 ≤ 0) : copyIndices F N G past C d = [] := by
  have hidx : N.idx 2 past.field_no_guard = past.field_no_guard 2 := by
    simp [DataSpace.idx]
  unfold copyIndices
  rw [hidx, Int.toNat_eq_zero.mpr h]
  rfl

/-- C14: in two dimensions `writeField` reads `field_no_guard[2]`, `field_guard[2]`, a
third component the vectors do not have, so what it stages is decided by the memory
found past their end. Whenever the value found past `field_no_guard` is not positive no
cell is copied at all. With padded shape 4 x 4, guard 1, local size 2 x 2 and one
component: if zeros are found there, the buffer handed over is the untouched one and
`staging[0]` is not `source[((0+1)*4 + (0+1))*1 + 0]`; if the values of a third
dimension of extent one are found there, the four cells are staged as the claim
states. -/
theorem writeField_2d_reads_third_component :
    (∀ (F N G : DataSpace 2) (past : PastEnd) (C d : Nat), past.field_no_guard 2 ≤ 0 →
      copyIndices F N G past C d = []) ∧
    (∀ i : Fin 2, flatLayout.guard i +
        (primaryDomainInfo (windowOfSize flatLocalSize) (fun _ => 0)).localDomainOffset i +
        (primaryDomainInfo (windowOfSize flatLocalSize) (fun _ => 0)).domainSize i ≤
      flatLayout.dataSpace i) ∧
    (∃ staging : Nat → Nat,
      (writeField noPast (stateOf flatLayout flatLocalSize [11])
        (primaryDomainInfo (windowOfSize flatLocalSize) (fun _ => 0)) 1
        indexSource).state.calls =
        [AdiosCall.adios_write_byid 7 11 (Payload.buffer staging)] ∧
      staging (0 * 2 + 0) ≠ indexSource (((0 + 1) * 4 + (0 + 1)) * 1 + 0)) ∧
    (∃ staging : Nat → Nat,
      (writeField unitPast (stateOf flatLayout flatLocalSize [11])
        (primaryDomainInfo (windowOfSize flatLocalSize) (fun _ => 0)) 1
        indexSource).state.calls =
        [AdiosCall.adios_write_byid 7 11 (Payload.buffer staging)] ∧
      ∀ x y : Fin 2,
        staging (y.val * 2 + x.val) =
          indexSource (((y.val + 1) * 4 + (x.val + 1)) * 1 + 0)) := by
  refine ⟨fun F N G past C d h => copyIndices_eq_nil_of_past F N G past C d h,
    by decide, ?_, ?_⟩
  · exact ⟨copyComponent flatLayout.dataSpace flatLocalSize
      (flatLayout.guard + (fun _ => 0)) noPast 1 0 indexSource (fun _ => 0), rfl, by decide⟩
  · exact ⟨copyComponent flatLayout.dataSpace flatLocalSize
      (flatLayout.guard + (fun _ => 0)) unitPast 1 0 indexSource (fun _ => 0), rfl, by decide⟩

/-! ## C8 and C9: the write cycle and the ghost domain -/

theorem defineFieldVar_withWindow {α : Type} {simDim : Nat} (defs : Defs) (lib : AdiosLib)
    (st : State α simDim) (w : VirtualWindow simDim) (C : Nat) (type : ADIOS_DATATYPES)
    (name : String) :
    defineFieldVar defs lib (st.withWindow w) C type name =
      (defineFieldVar defs lib st C type name).withWindow w := by
  unfold defineFieldVar
  exact List.foldl_hom (fun s : State α simDim => s.withWindow w) _ _ _ _ (fun _ _ => rfl)

theorem defineAdiosFieldVars_withWindow {α : Type} {simDim : Nat} (defs : Defs)
    (lib : AdiosLib) (st : State α simDim) (w : VirtualWindow simDim) :
    defineAdiosFieldVars defs lib (st.withWindow w) =
      (defineAdiosFieldVars defs lib st).withWindow w := by
  unfold defineAdiosFieldVars
  exact List.foldl_hom (fun s : State α simDim => s.withWindow w) _ _ _ _ (fun _ _ => rfl)

theorem defineAdiosVars_withWindow {α : Type} {simDim : Nat} (defs : Defs) (lib : AdiosLib)
    (fields : List (FileOutputField α simDim)) (domInfo : DomainInformation simDim)
    (st : State α simDim) (w : VirtualWindow simDim) :
    defineAdiosVars defs lib fields domInfo (st.withWindow w) =
      (defineAdiosVars defs lib fields domInfo st).withWindow w := by
  unfold defineAdiosVars
  simp only []
  have h1 := defineAdiosFieldVars_withWindow defs lib
    (adios_define_var lib
      (adios_define_var lib
        { ((st.call (AdiosCall.adios_declare_group defs.ADIOS_FIELDS_NAME "iteration")).call
            (AdiosCall.adios_select_method "MPI")) with
          params := { st.params with adiosGroupSize := 2 * sizeof_int } }
        "iteration" ADIOS_DATATYPES.adios_unsigned_integer none none none).1
      "sim_slides" ADIOS_DATATYPES.adios_unsigned_integer none none none).1 w
  have h2 : ∀ s : State α simDim,
      fields.foldl (fun st f => CollectFieldsSizes defs lib st domInfo f) (s.withWindow w) =
        (fields.foldl (fun st f => CollectFieldsSizes defs lib st domInfo f) s).withWindow w :=
    fun s => List.foldl_hom (fun s : State α simDim => s.withWindow w) _ _ _ _
      (fun x f => defineFieldVar_withWindow defs lib
        { x with
          params := { x.params with
            adiosGroupSize := addSizeT x.params.adiosGroupSize (localGroupSize f domInfo) } }
        w f.numComponents (fieldAdiosType f) f.name)
  rw [← h2]
  congr 1
  exact congrArg (fun s : State α simDim =>
    ({ s with params := { s.params with adiosFieldVarIds := [] } } : State α simDim)) h1

theorem writeFieldLoop_withWindow {α : Type} {simDim : Nat} (F N G : DataSpace simDim)
    (past : PastEnd) (C : Nat) (ptr : Nat → α) (w : VirtualWindow simDim) :
    ∀ (ds : List Nat) (st : State α simDim),
      writeFieldLoop F N G past C ptr ds (st.withWindow w) =
        ⟨(writeFieldLoop F N G past C ptr ds st).state.withWindow w,
          (writeFieldLoop F N G past C ptr ds st).error⟩ := by
  intro ds
  induction ds with
  | nil => intro st; rfl
  | cons d ds ih =>
    intro st
    rcases st with ⟨params, calls, definedVars⟩
    rcases hq : params.adiosFieldVarIds with _ | ⟨id, rest⟩
    · simp [writeFieldLoop, State.withWindow, hq]
    · simp only [writeFieldLoop, State.withWindow, hq]
      exact ih
        { params := { params with
            fieldBfr := copyComponent F N G past C d ptr params.fieldBfr
            adiosFieldVarIds := rest }
          calls := calls ++ [AdiosCall.adios_write_byid params.adiosFileHandle id
            (Payload.buffer (copyComponent F N G past C d ptr params.fieldBfr))]
          definedVars := definedVars }

theorem forEachGetFields_withWindow {α : Type} {simDim : Nat} (past : PastEnd)
    (domInfo : DomainInformation simDim) (w : VirtualWindow simDim) :
    ∀ (fields : List (FileOutputField α simDim)) (st : State α simDim),
      forEachGetFields past domInfo fields (st.withWindow w) =
        ⟨(forEachGetFields past domInfo fields st).state.withWindow w,
          (forEachGetFields past domInfo fields st).error⟩ := by
  intro fields
  induction fields with
  | nil => intro st; rfl
  | cons f fs ih =>
    intro st
    have h := writeFieldLoop_withWindow f.gridLayout.dataSpace domInfo.domainSize
      (f.gridLayout.guard + domInfo.localDomainOffset) past f.numComponents f.hostData w
      (List.range f.numComponents)
      { st with params := { st.params with gridLayout := f.gridLayout } }
    have hw : writeField past
        ({ (st.withWindow w) with
            params := { (st.withWindow w).params with gridLayout := f.gridLayout } })
        domInfo f.numComponents f.hostData =
        ⟨(writeField past { st with params := { st.params with gridLayout := f.gridLayout } }
            domInfo f.numComponents f.hostData).state.withWindow w,
          (writeField past { st with params := { st.params with gridLayout := f.gridLayout } }
            domInfo f.numComponents f.hostData).error⟩ := h
    simp only [forEachGetFields]
    rw [hw]
    simp only []
    cases (writeField past { st with params := { st.params with gridLayout := f.gridLayout } }
        domInfo f.numComponents f.hostData).error with
    | some e => rfl
    | none => exact ih _

theorem writeAxisVars_withWindow {α : Type} {simDim : Nat} (st : State α simDim)
    (domInfo : DomainInformation simDim) (w : VirtualWindow simDim) :
    writeAxisVars (st.withWindow w) domInfo = (writeAxisVars st domInfo).withWindow w := by
  unfold writeAxisVars
  exact List.foldl_hom (fun s : State α simDim => s.withWindow w) _ _ _ _ (fun _ _ => rfl)

theorem writeAdiosVars_eq {α : Type} {simDim : Nat} (past : PastEnd)
    (fields : List (FileOutputField α simDim)) (domInfo : DomainInformation simDim)
    (slides : Nat) (st : State α simDim) :
    writeAdiosVars past fields domInfo slides st =
      ⟨if (forEachGetFields past domInfo fields (writeAxisVars
            (((st.call (AdiosCall.adios_group_size st.params.adiosFileHandle
                st.params.adiosGroupSize)).call
              (AdiosCall.adios_write st.params.adiosFileHandle "iteration"
                st.params.currentStep)).call
              (AdiosCall.adios_write st.params.adiosFileHandle "sim_slides" slides))
            domInfo)).error = none then
          ((forEachGetFields past domInfo fields (writeAxisVars
            (((st.call (AdiosCall.adios_group_size st.params.adiosFileHandle
                st.params.adiosGroupSize)).call
              (AdiosCall.adios_write st.params.adiosFileHandle "iteration"
                st.params.currentStep)).call
              (AdiosCall.adios_write st.params.adiosFileHandle "sim_slides" slides))
            domInfo)).state.call
            (AdiosCall.adios_close (forEachGetFields past domInfo fields (writeAxisVars
              (((st.call (AdiosCall.adios_group_size st.params.adiosFileHandle
                  st.params.adiosGroupSize)).call
                (AdiosCall.adios_write st.params.adiosFileHandle "iteration"
                  st.params.currentStep)).call
                (AdiosCall.adios_write st.params.adiosFileHandle "sim_slides" slides))
              domInfo)).state.params.adiosFileHandle)).call AdiosCall.MPI_Barrier
        else
          (forEachGetFields past domInfo fields (writeAxisVars
            (((st.call (AdiosCall.adios_group_size st.params.adiosFileHandle
                st.params.adiosGroupSize)).call
              (AdiosCall.adios_write st.params.adiosFileHandle "iteration"
                st.params.currentStep)).call
              (AdiosCall.adios_write st.params.adiosFileHandle "sim_slides" slides))
            domInfo)).state,
        (forEachGetFields past domInfo fields (writeAxisVars
            (((st.call (AdiosCall.adios_group_size st.params.adiosFileHandle
                st.params.adiosGroupSize)).call
              (AdiosCall.adios_write st.params.adiosFileHandle "iteration"
                st.params.currentStep)).call
              (AdiosCall.adios_write st.params.adiosFileHandle "sim_slides" slides))
            domInfo)).error⟩ := by
  unfold writeAdiosVars
  simp only []
  split
  · rename_i e he
    simp only [State.call] at he ⊢
    rw [he]
    simp
  · rename_i he
    simp only [State.call] at he ⊢
    rw [he]
    simp

theorem writeAdiosVars_withWindow {α : Type} {simDim : Nat} (past : PastEnd)
    (fields : List (FileOutputField α simDim)) (domInfo : DomainInformation simDim)
    (slides : Nat) (st : State α simDim) (w : VirtualWindow simDim) :
    writeAdiosVars past fields domInfo slides (st.withWindow w) =
      ⟨(writeAdiosVars past fields domInfo slides st).state.withWindow w,
        (writeAdiosVars past fields domInfo slides st).error⟩ := by
  have hA : (((st.withWindow w).call (AdiosCall.adios_group_size
        (st.withWindow w).params.adiosFileHandle (st.withWindow w).params.adiosGroupSize)).call
      (AdiosCall.adios_write (st.withWindow w).params.adiosFileHandle "iteration"
        (st.withWindow w).params.currentStep)).call
      (AdiosCall.adios_write (st.withWindow w).params.adiosFileHandle "sim_slides" slides) =
      (((st.call (AdiosCall.adios_group_size st.params.adiosFileHandle
          st.params.adiosGroupSize)).call
        (AdiosCall.adios_write st.params.adiosFileHandle "iteration"
          st.params.currentStep)).call
        (AdiosCall.adios_write st.params.adiosFileHandle "sim_slides" slides)).withWindow w :=
    rfl
  rw [writeAdiosVars_eq, writeAdiosVars_eq, hA, writeAxisVars_withWindow,
    forEachGetFields_withWindow]
  simp only []
  split
  · rfl
  · rfl

/-- The outcome of `writeAdios` depends on the virtual window only through the primary
geometry and the number of slides. -/
theorem writeAdios_withWindow {α : Type} {simDim : Nat} (defs : Defs) (lib : AdiosLib)
    (past : PastEnd) (fields : List (FileOutputField α simDim)) (st0 : State α simDim)
    (w : VirtualWindow simDim)
    (hd : primaryDomainInfo w st0.params.gridPosition =
      primaryDomainInfo st0.params.window st0.params.gridPosition)
    (hs : w.slides = st0.params.window.slides) :
    writeAdios defs lib past fields (st0.withWindow w) =
      ⟨(writeAdios defs lib past fields st0).state.withWindow w,
        (writeAdios defs lib past fields st0).error⟩ := by
  unfold writeAdios
  have e1 : (st0.withWindow w).params.window = w := rfl
  have e2 : (st0.withWindow w).params.gridPosition = st0.params.gridPosition := rfl
  simp only [e1, e2, hd, hs, defineAdiosVars_withWindow]
  generalize defineAdiosVars defs lib fields
    (primaryDomainInfo st0.params.window st0.params.gridPosition) st0 = D
  by_cases hinv : lib.open_fd D.params.fullFilename = defs.ADIOS_INVALID_HANDLE
  · have hinv2 : lib.open_fd (D.withWindow w).params.fullFilename =
        defs.ADIOS_INVALID_HANDLE := hinv
    simp only [hinv, hinv2, if_true]
    rfl
  · have hinv2 : ¬ lib.open_fd (D.withWindow w).params.fullFilename =
        defs.ADIOS_INVALID_HANDLE := hinv
    simp only [hinv, hinv2, if_false]
    exact writeAdiosVars_withWindow past fields _ _
      { D with
        params := { D.params with adiosFileHandle := lib.open_fd D.params.fullFilename }
        calls := D.calls ++
          [AdiosCall.adios_open defs.ADIOS_FIELDS_NAME D.params.fullFilename "w"
            (lib.open_fd D.params.fullFilename)] } w

/-- C8: `writeAdios` returns at its first `return NULL`, before the statements that
would derive the ghost geometry. The calls it issues and its error are the same for
every `window.localFullSize` and `window.isBottom`, the inputs of the ghost local size.
For the bottom rank showing 50 x 52 of its 50 x 100 cells, the cycle is the one of the
primary geometry alone: it is the cycle of a rank without ghost rows, the variables
declared are the two scalars, the six axis variables and the field, and the last calls
are the write of the field, the close call and the barrier. -/
theorem writeAdios_ghost_local_size_not_derived :
    (∀ (α : Type) (simDim : Nat) (defs : Defs) (lib : AdiosLib) (past : PastEnd)
        (fields : List (FileOutputField α simDim)) (st0 : State α simDim)
        (localFullSize : DataSpace simDim) (isBottom : Bool),
      (writeAdios defs lib past fields
        (st0.withWindow { st0.params.window with
          localFullSize := localFullSize
          isBottom := isBottom })).state.calls =
        (writeAdios defs lib past fields st0).state.calls ∧
      (writeAdios defs lib past fields
        (st0.withWindow { st0.params.window with
          localFullSize := localFullSize
          isBottom := isBottom })).error =
        (writeAdios defs lib past fields st0).error) ∧
    (bottomWindow ![50, 100] ![50, 300] true).localFullSize 1 -
      (bottomWindow ![50, 100] ![50, 300] true).localSize 1 = 48 ∧
    (writeAdios exampleDefs exampleLib noPast [scalarField]
      (bottomRankState (bottomWindow ![50, 100] ![50, 300] true))).state.calls =
      (writeAdios exampleDefs exampleLib noPast [scalarField]
        (bottomRankState (bottomWindow ![50, 52] ![50, 300] false))).state.calls ∧
    ((writeAdios exampleDefs exampleLib noPast [scalarField]
      (bottomRankState (bottomWindow ![50, 100] ![50, 300] true))).state.calls.filterMap
        AdiosCall.declared).map Prod.fst =
      ["iteration", "sim_slides", "size_x", "totalSize_x", "offset_x", "size_y",
        "totalSize_y", "offset_y", "fields_FieldRho"] ∧
    (writeAdios exampleDefs exampleLib noPast [scalarField]
      (bottomRankState (bottomWindow ![50, 100] ![50, 300] true))).state.calls.map
        AdiosCall.kind =
      [CallKind.adios_declare_group, CallKind.adios_select_method] ++
        List.replicate 9 CallKind.adios_define_var ++
        [CallKind.adios_open, CallKind.adios_group_size, CallKind.adios_write,
          CallKind.adios_write] ++
        List.replicate 7 CallKind.adios_write_byid ++
        [CallKind.adios_close, CallKind.MPI_Barrier] := by
  refine ⟨fun α simDim defs lib past fields st0 localFullSize isBottom => ?_,
    by decide, ?_, by decide, by decide⟩
  · have h := writeAdios_withWindow defs lib past fields st0
      { st0.params.window with localFullSize := localFullSize, isBottom := isBottom }
      rfl rfl
    rw [h]
    exact ⟨rfl, rfl⟩
  · have h := writeAdios_withWindow exampleDefs exampleLib noPast [scalarField]
      (bottomRankState (bottomWindow ![50, 52] ![50, 300] false))
      (bottomWindow ![50, 100] ![50, 300] true) rfl rfl
    have e : bottomRankState (bottomWindow ![50, 100] ![50, 300] true) =
        (bottomRankState (bottomWindow ![50, 52] ![50, 300] false)).withWindow
          (bottomWindow ![50, 100] ![50, 300] true) := rfl
    rw [e, h]
    rfl

end adios
end picongpu
